import Mathlib

/-!
Verification development for the coordination-detection and risk-scoring core
of the narrative-graph repository.

The Python source is shallowly embedded:
* floats become rationals (ℚ); `round(x, 4)` becomes `pyRound4`, which rounds
  half-to-even like Python's `round`;
* `datetime` timestamps become rationals counting seconds, so that
  `(t1 - t2).total_seconds()` is plain subtraction;
* Python sets used only for counting/membership become `Finset`; sets that are
  converted back to lists (`list(set(...))`) become duplicate-free lists in
  first-insertion order (CPython's set iteration order is hash-dependent and
  never observed by the claims, which are stated via membership);
* the cosine similarity of two embedding rows is an abstract rational-valued
  function `i j ↦ q` supplied as the optional embeddings argument
  (cosine similarity itself is real-valued and lies in [-1, 1]);
* the Neo4j connection and the persistence calls are dropped: they do not
  affect the returned values;
* schema fields that the modelled core never reads (platform, language,
  enrichment counters, ...) are omitted from the record types.
-/

namespace NarrativeGraph

/-- Insert an element at the end of a list unless it is already present.
Models adding to a Python `set` while remembering first-insertion order. -/
def insertNew {α : Type} [DecidableEq α] (l : List α) (a : α) : List α :=
  if a ∈ l then l else l ++ [a]

/-- First-occurrence deduplication of a list; models `list(set(xs))`. -/
def dedupList {α : Type} [DecidableEq α] (l : List α) : List α :=
  l.foldl insertNew []

/-- Python `max` over a list of numbers (0 on the empty list, which the
source never evaluates). -/
def listMax : List ℚ → ℚ
  | [] => 0
  | x :: xs => xs.foldl max x

/-- Python `sum` over a list of numbers. -/
def sumList (l : List ℚ) : ℚ := l.foldl (· + ·) 0

/-- Code-point comparison of character lists: Python's `<` on strings. -/
def strLtAux : List Char → List Char → Bool
  | [], [] => false
  | [], _ :: _ => true
  | _ :: _, [] => false
  | a :: as, b :: bs =>
    if a.toNat < b.toNat then true
    else if b.toNat < a.toNat then false
    else strLtAux as bs

/-- Python `<` on strings (lexicographic by code point). -/
def strLt (a b : String) : Bool := strLtAux a.data b.data

/-- Python `tuple(sorted([a, b]))` for two strings. -/
def sortKey2 (a b : String) : String × String :=
  if strLt b a then (b, a) else (a, b)

/-- Python `s.endswith(suf)`. -/
def strEndsWith (s suf : String) : Bool :=
  decide (suf.data = s.data.drop (s.data.length - suf.data.length))

/-- Helper for `pyWords`: split a character list on whitespace runs,
`cur` holding the current word reversed. -/
def wordsAux : List Char → List Char → List (List Char)
  | [], cur => if cur = [] then [] else [cur.reverse]
  | c :: cs, cur =>
    if c.isWhitespace then
      (if cur = [] then wordsAux cs [] else cur.reverse :: wordsAux cs [])
    else wordsAux cs (c :: cur)

/-- Python `s.split()` with no argument: maximal non-whitespace runs. -/
def pyWords (s : String) : List (List Char) := wordsAux s.data []

/-- Python `s.lower()` (ASCII model). -/
def pyLower (s : String) : String := String.mk (s.data.map Char.toLower)

/-- Python `x or default` for an optional numeric argument: `None` and `0`
are falsy and select the default. -/
def pyOr {α : Type} [Zero α] [DecidableEq α] (x : Option α) (dflt : α) : α :=
  match x with
  | none => dflt
  | some v => if v = 0 then dflt else v

/-- Python `xs or default` for an optional list argument: `None` and the
empty list are falsy and select the default. -/
def pyOrList {α : Type} (x : Option (List α)) (dflt : List α) : List α :=
  match x with
  | none => dflt
  | some v => if v.isEmpty then dflt else v

/-- Python `round(q, 4)`: round to 4 decimal places, ties to even. -/
def pyRound4 (q : ℚ) : ℚ :=
  let r := q * 10000
  let f : ℤ := ⌊r⌋
  let n : ℤ :=
    if r - f < 1/2 then f
    else if 1/2 < r - f then f + 1
    else if f % 2 = 0 then f else f + 1
  (n : ℚ) / 10000

/-- Python `round(q, 2)` as an integer count of hundredths (for `{:.2f}`). -/
def pyRound2Int (q : ℚ) : ℤ :=
  let r := q * 100
  let f : ℤ := ⌊r⌋
  if r - f < 1/2 then f
  else if 1/2 < r - f then f + 1
  else if f % 2 = 0 then f else f + 1

/-- Zero-padding of a numeral string to width 2. -/
def padLeft2 (s : String) : String :=
  if s.length < 2 then String.mk (List.replicate (2 - s.length) '0') ++ s else s

/-- Python `f"{q:.2f}"` for the nonnegative scores the source formats. -/
def fmt2 (q : ℚ) : String :=
  let n := pyRound2Int q
  if n < 0 then
    "-" ++ toString ((-n).toNat / 100) ++ "." ++ padLeft2 (toString ((-n).toNat % 100))
  else
    toString (n.toNat / 100) ++ "." ++ padLeft2 (toString (n.toNat % 100))

/-- Python `f"{n:04d}"` for nonnegative group counters. -/
def pad4 (n : Nat) : String :=
  let s := toString n
  if s.length < 4 then String.mk (List.replicate (4 - s.length) '0') ++ s else s

/-! ## Data model (ingestion/schemas.py, trimmed to the fields the core reads) -/

/-- Model of `NormalizedPost`: the fields consumed by the coordination and
risk core. `timestamp` is in seconds. -/
structure Post where
  id : String
  timestamp : ℚ
  author_id : String
  text : String
  urls : List String
  domains : List String
  hashtags : List String
  deriving DecidableEq, Repr

/-- Model of `CoordinationEvidence`. -/
structure CoordinationEvidence where
  post_ids : List String := []
  shared_domains : List String := []
  shared_hashtags : List String := []
  text_similarity : Option ℚ := none
  time_delta_seconds : Option ℚ := none
  deriving DecidableEq, Repr

/-- Model of `CoordinatedPair`. -/
structure CoordinatedPair where
  author1_id : String
  author2_id : String
  score : ℚ
  evidence : CoordinationEvidence
  narrative_id : Option String := none
  deriving DecidableEq, Repr

/-- Model of `CoordinatedGroup`. -/
structure CoordinatedGroup where
  id : String
  author_ids : List String
  score : ℚ
  evidence_summary : String
  narrative_ids : List String := []
  size : ℤ := 0
  deriving DecidableEq, Repr

/-- Model of `RiskComponents`. -/
structure RiskComponents where
  velocity : ℚ := 0
  coordination_density : ℚ := 0
  bot_score : ℚ := 0
  foreign_domain_ratio : ℚ := 0
  toxicity : ℚ := 0
  deriving DecidableEq, Repr

/-- Model of `RiskLevel`. -/
inductive RiskLevel where
  | LOW
  | MEDIUM
  | HIGH
  deriving DecidableEq, Repr

/-- Model of `NarrativeRisk`. -/
structure NarrativeRisk where
  narrative_id : String
  risk_score : ℚ
  risk_level : RiskLevel
  components : RiskComponents
  reasons : List String := []
  deriving DecidableEq, Repr

/-- Model of `NarrativeMetadata`, trimmed to the fields the risk engine
reads (`id`, `author_count`). -/
structure NarrativeMetadata where
  id : String
  size : ℤ := 0
  author_count : ℤ := 0
  deriving DecidableEq, Repr

/-! ## Configuration (config.py defaults) -/

/-- Model of `CoordinationConfig` with its defaults. -/
structure CoordinationConfig where
  time_window_minutes : ℤ := 60
  similarity_threshold : ℚ := 0.85
  min_group_size : ℤ := 3
  shared_domain_weight : ℚ := 0.3
  shared_hashtag_weight : ℚ := 0.2
  text_similarity_weight : ℚ := 0.5
  deriving DecidableEq, Repr

/-- Model of `RiskWeightsConfig` with its defaults. -/
structure RiskWeightsConfig where
  velocity : ℚ := 0.25
  coordination_density : ℚ := 0.30
  bot_score : ℚ := 0.20
  foreign_domain_ratio : ℚ := 0.15
  toxicity : ℚ := 0.10
  deriving DecidableEq, Repr

/-- Model of `RiskThresholdsConfig` with its defaults. -/
structure RiskThresholdsConfig where
  low : ℚ := 0.3
  medium : ℚ := 0.6
  high : ℚ := 0.8
  deriving DecidableEq, Repr

/-- Model of `RiskConfig` with its defaults. -/
structure RiskConfig where
  weights : RiskWeightsConfig := {}
  thresholds : RiskThresholdsConfig := {}
  foreign_tlds : List String := [".ru", ".cn", ".ir"]
  deriving DecidableEq, Repr

/-- The default coordination settings returned by `get_settings()`. -/
def defaultCoordinationConfig : CoordinationConfig := {}

/-- The default risk settings returned by `get_settings()`. -/
def defaultRiskConfig : RiskConfig := {}

/-! ## CoordinationDetector (coordination/detector.py) -/

/-- The state a `CoordinationDetector` carries after `__init__`:
`self.time_window` is kept as its total seconds. -/
structure CoordinationDetector where
  time_window_seconds : ℚ
  similarity_threshold : ℚ
  min_group_size : ℤ
  text_weight : ℚ
  domain_weight : ℚ
  hashtag_weight : ℚ
  deriving DecidableEq, Repr

/-- `CoordinationDetector.__init__`: each explicit argument is combined with
the settings default via Python `or`, and
`timedelta(minutes=m).total_seconds() = 60 * m`. -/
def CoordinationDetector.init (settings : CoordinationConfig)
    (time_window_minutes : Option ℤ := none)
    (similarity_threshold : Option ℚ := none)
    (min_group_size : Option ℤ := none) : CoordinationDetector :=
  { time_window_seconds := 60 * ((pyOr time_window_minutes settings.time_window_minutes : ℤ) : ℚ)
    similarity_threshold := pyOr similarity_threshold settings.similarity_threshold
    min_group_size := pyOr min_group_size settings.min_group_size
    text_weight := settings.text_similarity_weight
    domain_weight := settings.shared_domain_weight
    hashtag_weight := settings.shared_hashtag_weight }

/-- The detector built from the default settings with no explicit arguments. -/
def defaultDetector : CoordinationDetector :=
  CoordinationDetector.init defaultCoordinationConfig

/-- Text similarity of two posts given by their embedding indices:
`0.0` when no embeddings are supplied, else the abstract cosine-similarity
oracle applied to the two row indices. -/
def textSimOf (emb : Option (Nat → Nat → ℚ)) (i j : Nat) : ℚ :=
  match emb with
  | none => 0
  | some f => f i j

/-- Jaccard overlap as computed inline by `_calculate_pair_score`:
`len(a ∩ b) / max(len(a ∪ b), 1)` on the underlying sets. -/
def jaccard (xs ys : List String) : ℚ :=
  ((xs.toFinset ∩ ys.toFinset).card : ℚ) / ((max (xs.toFinset ∪ ys.toFinset).card 1 : ℕ) : ℚ)

/-- The combined per-pair score
`text_weight * text_sim + domain_weight * domain_sim + hashtag_weight * hashtag_sim`. -/
def combinedPairScore (d : CoordinationDetector) (emb : Option (Nat → Nat → ℚ))
    (p1 p2 : Post × Nat) : ℚ :=
  d.text_weight * textSimOf emb p1.2 p2.2
    + d.domain_weight * jaccard p1.1.domains p2.1.domains
    + d.hashtag_weight * jaccard p1.1.hashtags p2.1.hashtags

/-- One iteration of the nested loop in `_calculate_pair_score`: skip the
post pair unless its absolute timestamp delta is within the time window,
otherwise extend the evidence and append the combined score. -/
def evidenceStep (d : CoordinationDetector) (emb : Option (Nat → Nat → ℚ))
    (acc : CoordinationEvidence × List ℚ) (pp : (Post × Nat) × (Post × Nat)) :
    CoordinationEvidence × List ℚ :=
  let p1 := pp.1
  let p2 := pp.2
  let time_diff := |p1.1.timestamp - p2.1.timestamp|
  if time_diff ≤ d.time_window_seconds then
    let shared_domains := (dedupList p1.1.domains).filter (fun x => decide (x ∈ p2.1.domains))
    let shared_hashtags := (dedupList p1.1.hashtags).filter (fun x => decide (x ∈ p2.1.hashtags))
    ({ acc.1 with
        post_ids := acc.1.post_ids ++ [p1.1.id, p2.1.id]
        time_delta_seconds := some time_diff
        shared_domains := acc.1.shared_domains ++ shared_domains
        shared_hashtags := acc.1.shared_hashtags ++ shared_hashtags },
      acc.2 ++ [combinedPairScore d emb p1 p2])
  else acc

/-- All `(post1, post2)` combinations visited by the nested loop of
`_calculate_pair_score`, in loop order. -/
def postPairs (posts1 posts2 : List (Post × Nat)) : List ((Post × Nat) × (Post × Nat)) :=
  posts1.flatMap (fun a => posts2.map (fun b => (a, b)))

/-- Whether a post pair falls within the detector's time window. -/
def qualifies (d : CoordinationDetector) (pp : (Post × Nat) × (Post × Nat)) : Bool :=
  decide (|pp.1.1.timestamp - pp.2.1.timestamp| ≤ d.time_window_seconds)

/-- The post pairs of two authors that fall within the time window. -/
def qualifyingPairs (d : CoordinationDetector) (posts1 posts2 : List (Post × Nat)) :
    List ((Post × Nat) × (Post × Nat)) :=
  (postPairs posts1 posts2).filter (qualifies d)

/-- `CoordinationDetector._calculate_pair_score`. -/
def CoordinationDetector.calculate_pair_score (d : CoordinationDetector)
    (posts1 posts2 : List (Post × Nat)) (emb : Option (Nat → Nat → ℚ)) :
    ℚ × CoordinationEvidence :=
  let res := (postPairs posts1 posts2).foldl (evidenceStep d emb) ({}, [])
  if res.2 = [] then (0, res.1)
  else
    (listMax res.2,
      { res.1 with
          post_ids := dedupList res.1.post_ids
          shared_domains := dedupList res.1.shared_domains
          shared_hashtags := dedupList res.1.shared_hashtags
          text_similarity := some (listMax res.2) })

/-- Append a value under a key of an insertion-ordered association list;
models `defaultdict(list)[k].append(v)`. -/
def assocAppend {α : Type} (m : List (String × List α)) (k : String) (v : α) :
    List (String × List α) :=
  match m with
  | [] => [(k, [v])]
  | (k1, vs) :: rest =>
    if k1 = k then (k1, vs ++ [v]) :: rest else (k1, vs) :: assocAppend rest k v

/-- Group `(post, index)` data by `author_id`, keys in first-occurrence order;
models the `author_posts` defaultdict. -/
def groupByAuthor (l : List (Post × Nat)) : List (String × List (Post × Nat)) :=
  l.foldl (fun m pv => assocAppend m pv.1.author_id pv) []

/-- Dictionary lookup in the grouped data. -/
def lookupPosts (m : List (String × List (Post × Nat))) (k : String) : List (Post × Nat) :=
  ((m.find? fun e => decide (e.1 = k)).map (·.2)).getD []

/-- All ordered pairs `(l[i], l[j])` with `i < j`; models the nested loop
`for i, a in enumerate(l): for b in l[i+1:]`. -/
def pairsFrom {α : Type} : List α → List (α × α)
  | [] => []
  | a :: rest => rest.map (fun b => (a, b)) ++ pairsFrom rest

/-- `CoordinationDetector._detect_pairs_in_narrative`. -/
def CoordinationDetector.detect_pairs_in_narrative (d : CoordinationDetector)
    (post_data : List (Post × Nat)) (emb : Option (Nat → Nat → ℚ))
    (narrative_id : String) : List CoordinatedPair :=
  let author_posts := groupByAuthor post_data
  let author_ids := author_posts.map (·.1)
  (pairsFrom author_ids).filterMap (fun ab =>
    let se := d.calculate_pair_score (lookupPosts author_posts ab.1)
      (lookupPosts author_posts ab.2) emb
    if d.similarity_threshold ≤ se.1 then
      some { author1_id := ab.1, author2_id := ab.2, score := se.1,
             evidence := se.2, narrative_id := some narrative_id }
    else none)

/-! ## Group builder (`CoordinationDetector._build_groups`) -/

/-- The keys of the `graph` defaultdict, in insertion order: for each pair,
`graph[author1].add(author2); graph[author2].add(author1)` creates the keys
`author1` then `author2` on first touch. -/
def graphKeys (pairs : List CoordinatedPair) : List String :=
  pairs.foldl (fun ks p => insertNew (insertNew ks p.author1_id) p.author2_id) []

/-- The contribution of one pair to the adjacency set of author `a`. -/
def neighborsStep (a : String) (ns : List String) (p : CoordinatedPair) : List String :=
  if p.author1_id = a then insertNew ns p.author2_id
  else if p.author2_id = a then insertNew ns p.author1_id
  else ns

/-- The adjacency set `graph[a]` built from all pairs. -/
def neighbors (pairs : List CoordinatedPair) (a : String) : List String :=
  pairs.foldl (neighborsStep a) []

/-- The `pair_scores` dict: canonical (sorted) author pair to the originating
`CoordinatedPair`; a later pair with the same key overwrites an earlier one. -/
def pairLookup (pairs : List CoordinatedPair) (k : String × String) : Option CoordinatedPair :=
  pairs.foldl (fun acc p => if sortKey2 p.author1_id p.author2_id = k then some p else acc) none

lemma insertNew_length_le {α : Type} [DecidableEq α] (l : List α) (a : α) :
    (insertNew l a).length ≤ l.length + 1 := by
  unfold insertNew
  split
  · exact Nat.le_succ _
  · simp

lemma mem_insertNew {α : Type} [DecidableEq α] (l : List α) (a x : α) :
    x ∈ insertNew l a ↔ x ∈ l ∨ x = a := by
  unfold insertNew
  split
  · constructor
    · exact Or.inl
    · rintro (h | rfl) <;> assumption
  · simp

lemma neighborsStep_length_le (a : String) (ns : List String) (p : CoordinatedPair) :
    (neighborsStep a ns p).length ≤ ns.length + 1 := by
  unfold neighborsStep
  split
  · exact insertNew_length_le _ _
  · split
    · exact insertNew_length_le _ _
    · exact Nat.le_succ _

lemma foldl_neighborsStep_length_le (a : String) :
    ∀ (pairs : List CoordinatedPair) (acc : List String),
    (pairs.foldl (neighborsStep a) acc).length ≤ acc.length + pairs.length := by
  intro pairs
  induction pairs with
  | nil => intro acc; simp
  | cons p ps ih =>
    intro acc
    calc (List.foldl (neighborsStep a) (neighborsStep a acc p) ps).length
        ≤ (neighborsStep a acc p).length + ps.length := ih _
      _ ≤ acc.length + 1 + ps.length :=
          Nat.add_le_add_right (neighborsStep_length_le a acc p) _
      _ = acc.length + (p :: ps).length := by simp; omega

lemma neighbors_length_le (pairs : List CoordinatedPair) (a : String) :
    (neighbors pairs a).length ≤ pairs.length := by
  simpa using foldl_neighborsStep_length_le a pairs []

lemma mem_graphKeys_aux (x : String) :
    ∀ (pairs : List CoordinatedPair) (acc : List String),
    x ∈ pairs.foldl (fun ks p => insertNew (insertNew ks p.author1_id) p.author2_id) acc ↔
      x ∈ acc ∨ ∃ p ∈ pairs, x = p.author1_id ∨ x = p.author2_id := by
  intro pairs
  induction pairs with
  | nil => intro acc; simp
  | cons p ps ih =>
    intro acc
    rw [List.foldl_cons, ih]
    rw [mem_insertNew, mem_insertNew]
    constructor
    · rintro (((h | h) | h) | ⟨q, hq, h⟩)
      · exact Or.inl h
      · exact Or.inr ⟨p, by simp, Or.inl h⟩
      · exact Or.inr ⟨p, by simp, Or.inr h⟩
      · exact Or.inr ⟨q, by simp [hq], h⟩
    · rintro (h | ⟨q, hq, h⟩)
      · exact Or.inl (Or.inl (Or.inl h))
      · rcases List.mem_cons.mp hq with rfl | hq2
        · rcases h with h | h
          · exact Or.inl (Or.inl (Or.inr h))
          · exact Or.inl (Or.inr h)
        · exact Or.inr ⟨q, hq2, h⟩

lemma mem_graphKeys (pairs : List CoordinatedPair) (x : String) :
    x ∈ graphKeys pairs ↔ ∃ p ∈ pairs, x = p.author1_id ∨ x = p.author2_id := by
  unfold graphKeys
  rw [mem_graphKeys_aux]
  simp

lemma neighbors_eq_nil_of_not_mem (pairs : List CoordinatedPair) (a : String)
    (h : a ∉ graphKeys pairs) : neighbors pairs a = [] := by
  have hnp : ∀ p ∈ pairs, p.author1_id ≠ a ∧ p.author2_id ≠ a := by
    intro p hp
    constructor
    · intro he
      exact h ((mem_graphKeys pairs a).mpr ⟨p, hp, Or.inl he.symm⟩)
    · intro he
      exact h ((mem_graphKeys pairs a).mpr ⟨p, hp, Or.inr he.symm⟩)
  unfold neighbors
  have : ∀ (ps : List CoordinatedPair), (∀ p ∈ ps, p.author1_id ≠ a ∧ p.author2_id ≠ a) →
      ∀ acc, ps.foldl (neighborsStep a) acc = acc := by
    intro ps
    induction ps with
    | nil => intro _ acc; simp
    | cons q qs ih =>
      intro hq acc
      rw [List.foldl_cons]
      have h1 := hq q (by simp)
      have hstep : neighborsStep a acc q = acc := by
        unfold neighborsStep
        rw [if_neg h1.1, if_neg h1.2]
      rw [hstep]
      exact ih (fun p hp => hq p (by simp [hp])) acc
  exact this pairs hnp []

lemma filter_length_mono {α : Type} (p q : α → Bool) (himp : ∀ x, q x = true → p x = true) :
    ∀ (l : List α), (l.filter q).length ≤ (l.filter p).length := by
  intro l
  induction l with
  | nil => simp
  | cons a as ih =>
    by_cases hq : q a = true
    · rw [List.filter_cons_of_pos hq, List.filter_cons_of_pos (himp a hq)]
      simpa using ih
    · rw [List.filter_cons_of_neg (by simpa using hq)]
      by_cases hp : p a = true
      · rw [List.filter_cons_of_pos hp]
        exact Nat.le_succ_of_le ih
      · rw [List.filter_cons_of_neg (by simpa using hp)]
        exact ih

lemma filter_length_strict {α : Type} (p q : α → Bool) (himp : ∀ x, q x = true → p x = true)
    (a : α) (hp : p a = true) (hq : q a = false) :
    ∀ (l : List α), a ∈ l → (l.filter q).length < (l.filter p).length := by
  intro l
  induction l with
  | nil => simp
  | cons b bs ih =>
    intro hmem
    rcases List.mem_cons.mp hmem with rfl | hmem2
    · rw [List.filter_cons_of_pos hp, List.filter_cons_of_neg (by simp [hq])]
      exact Nat.lt_succ_of_le (filter_length_mono p q himp bs)
    · by_cases hqb : q b = true
      · rw [List.filter_cons_of_pos hqb, List.filter_cons_of_pos (himp b hqb)]
        simpa using ih hmem2
      · rw [List.filter_cons_of_neg (by simpa using hqb)]
        by_cases hpb : p b = true
        · rw [List.filter_cons_of_pos hpb]
          exact Nat.lt_succ_of_lt (ih hmem2)
        · rw [List.filter_cons_of_neg (by simpa using hpb)]
          exact ih hmem2

/-- Breadth-first traversal of `_build_groups`: pop the queue head; skip it if
visited, else mark it visited, append it to the component, and enqueue its
unvisited neighbors. Returns the component in discovery order together with
the final visited set. -/
def bfs (pairs : List CoordinatedPair) (queue visited : List String) :
    List String × List String :=
  match queue with
  | [] => ([], visited)
  | a :: rest =>
    if a ∈ visited then bfs pairs rest visited
    else
      let visited1 := visited ++ [a]
      let newQueue := rest ++ (neighbors pairs a).filter (fun n => decide (n ∉ visited1))
      let r := bfs pairs newQueue visited1
      (a :: r.1, r.2)
termination_by
  ((graphKeys pairs).filter (fun x => decide (x ∉ visited))).length * (pairs.length + 1)
    + queue.length
decreasing_by
  all_goals simp_wf
  rename_i ha
  by_cases hmem : a ∈ graphKeys pairs
  · have hK := filter_length_strict (fun x => !decide (x ∈ visited))
      (fun x => !decide (x ∈ visited) && !decide (x = a))
      (by intro x hx; simp at hx ⊢; exact hx.1) a (by simpa using ha) (by simp)
      (graphKeys pairs) hmem
    have hns : (List.filter (fun n => !decide (n ∈ visited) && !decide (n = a))
        (neighbors pairs a)).length ≤ pairs.length :=
      le_trans (List.length_filter_le _ _) (neighbors_length_le pairs a)
    have hmul : (List.filter (fun x => !decide (x ∈ visited) && !decide (x = a))
          (graphKeys pairs)).length * (pairs.length + 1) + (pairs.length + 1) ≤
        (List.filter (fun x => !decide (x ∈ visited)) (graphKeys pairs)).length *
          (pairs.length + 1) := by
      calc (List.filter (fun x => !decide (x ∈ visited) && !decide (x = a))
            (graphKeys pairs)).length * (pairs.length + 1) + (pairs.length + 1)
          = ((List.filter (fun x => !decide (x ∈ visited) && !decide (x = a))
            (graphKeys pairs)).length + 1) * (pairs.length + 1) := by ring
        _ ≤ (List.filter (fun x => !decide (x ∈ visited)) (graphKeys pairs)).length *
            (pairs.length + 1) := Nat.mul_le_mul_right _ hK
    omega
  · rw [neighbors_eq_nil_of_not_mem pairs a hmem]
    have hK : (List.filter (fun x => !decide (x ∈ visited) && !decide (x = a))
          (graphKeys pairs)).length ≤
        (List.filter (fun x => !decide (x ∈ visited)) (graphKeys pairs)).length :=
      filter_length_mono _ _
        (by intro x hx; simp only [Bool.and_eq_true] at hx; exact hx.1) (graphKeys pairs)
    have hmul := Nat.mul_le_mul_right (pairs.length + 1) hK
    simp only [List.filter_nil, List.length_nil]
    omega

/-- Build one `CoordinatedGroup` from a discovered component: walk the ordered
intra-component author pairs, look each canonical key up in the pair map,
average the scores of the pairs found, and collect their truthy narrative IDs. -/
def mkGroup (pairs : List CoordinatedPair) (group_id : Nat) (component : List String) :
    CoordinatedGroup :=
  let found := (pairsFrom component).filterMap (fun ab => pairLookup pairs (sortKey2 ab.1 ab.2))
  let group_scores := found.map (·.score)
  let narrative_ids := found.foldl (fun acc p =>
    match p.narrative_id with
    | some nid => if nid = "" then acc else insertNew acc nid
    | none => acc) []
  let avg_score := if group_scores = [] then 0 else sumList group_scores / (group_scores.length : ℚ)
  { id := "coord_group_" ++ pad4 group_id
    author_ids := component
    score := avg_score
    evidence_summary := "Group of " ++ toString component.length ++
      " authors with avg coordination score " ++ fmt2 avg_score
    narrative_ids := narrative_ids
    size := (component.length : ℤ) }

/-- The outer loop of `_build_groups`: BFS from each unvisited author in key
order, emitting a group (and bumping the counter) only when the component
reaches the minimum size. -/
def buildLoop (d : CoordinationDetector) (pairs : List CoordinatedPair) :
    List String → List String → Nat → List CoordinatedGroup
  | [], _, _ => []
  | a :: rest, visited, gid =>
    if a ∈ visited then buildLoop d pairs rest visited gid
    else
      let r := bfs pairs [a] visited
      if d.min_group_size ≤ (r.1.length : ℤ) then
        mkGroup pairs gid r.1 :: buildLoop d pairs rest r.2 (gid + 1)
      else buildLoop d pairs rest r.2 gid

/-- The same traversal without the size filter: every breadth-first component
in discovery order. -/
def compLoop (pairs : List CoordinatedPair) :
    List String → List String → List (List String)
  | [], _ => []
  | a :: rest, visited =>
    if a ∈ visited then compLoop pairs rest visited
    else
      let r := bfs pairs [a] visited
      r.1 :: compLoop pairs rest r.2

/-- All breadth-first connected components discovered from the pair graph. -/
def bfsComponents (pairs : List CoordinatedPair) : List (List String) :=
  compLoop pairs (graphKeys pairs) []

/-- `CoordinationDetector._build_groups`: early-return on no pairs, otherwise
find components, keep those of minimum size, and stable-sort the groups by
score descending. -/
def CoordinationDetector.build_groups (d : CoordinationDetector)
    (pairs : List CoordinatedPair) : List CoordinatedGroup :=
  if pairs = [] then []
  else (buildLoop d pairs (graphKeys pairs) [] 0).mergeSort
    (fun g1 g2 => decide (g2.score ≤ g1.score))

/-! ## Risk component functions (risk/components.py) -/

/-- `sorted([p.timestamp for p in posts])`. -/
def sortedTimestamps (posts : List Post) : List ℚ :=
  (posts.map (·.timestamp)).mergeSort (fun a b => decide (a ≤ b))

/-- The burst-anchor count of `calculate_velocity_score`: the number of
indices `i` such that at least 5 entries of `timestamps[i:]` lie within 900
seconds above `timestamps[i]`. -/
def codeBurstCount (timestamps : List ℚ) : Nat :=
  (List.range timestamps.length).countP (fun i =>
    decide (5 ≤ (timestamps.drop i).countP (fun other_ts =>
      decide (other_ts - timestamps.getD i 0 ≤ 900))))

/-- `calculate_velocity_score`. -/
def calculate_velocity_score (posts : List Post) (narrative : NarrativeMetadata) : ℚ :=
  if posts = [] ∨ posts.length < 2 then 0
  else
    let timestamps := sortedTimestamps posts
    let time_span := timestamps.getLastD 0 - timestamps.headD 0
    if time_span ≤ 0 then 1
    else
      let hours := time_span / 3600
      let posts_per_hour := (posts.length : ℚ) / hours
      let score := min (posts_per_hour / 10) 1
      let burst_ratio :=
        if timestamps = [] then 0 else (codeBurstCount timestamps : ℚ) / (timestamps.length : ℚ)
      pyRound4 (min (score + burst_ratio * (2/10)) 1)

/-- `calculate_coordination_score`. -/
def calculate_coordination_score (narrative_id : String)
    (groups : List CoordinatedGroup) (total_authors : ℤ) : ℚ :=
  if total_authors ≤ 1 then 0
  else
    let relevant_groups := groups.filter (fun g => decide (narrative_id ∈ g.narrative_ids))
    if relevant_groups = [] then 0
    else
      let coordinated_authors := relevant_groups.foldl (fun s g => g.author_ids.foldl insertNew s) []
      let total_group_score := relevant_groups.foldl (fun t g => t + g.score * (g.size : ℚ)) 0
      let coordination_ratio := (coordinated_authors.length : ℚ) / (total_authors : ℚ)
      let avg_group_score :=
        if coordinated_authors = [] then 0
        else total_group_score / (coordinated_authors.length : ℚ)
      let score := coordination_ratio * (6/10) + avg_group_score * (4/10)
      pyRound4 (min score 1)

/-- `calculate_foreign_domain_score`. The optional TLD list argument falls
back to the settings default through Python `or` (an empty list is falsy). -/
def calculate_foreign_domain_score (posts : List Post)
    (foreign_tlds : Option (List String) := none) : ℚ :=
  let tlds := pyOrList foreign_tlds defaultRiskConfig.foreign_tlds
  if posts = [] then 0
  else
    let sets := posts.foldl (fun s p => p.domains.foldl (fun s2 d =>
        (insert d s2.1, if tlds.any (fun tld => strEndsWith d tld) then insert d s2.2 else s2.2))
      s) ((∅ : Finset String), (∅ : Finset String))
    let all_domains := sets.1
    let foreign_domains := sets.2
    if all_domains = ∅ then 0
    else pyRound4 ((foreign_domains.card : ℚ) / (all_domains.card : ℚ))

/-- Group full posts by `author_id`, keys in first-occurrence order;
models the `author_posts` defaultdict of `calculate_bot_score`. -/
def groupPostsByAuthor (posts : List Post) : List (String × List Post) :=
  posts.foldl (fun m p => assocAppend m p.author_id p) []

/-- The per-author bot indicator accumulation of `calculate_bot_score`. -/
def botIndicators (author_posts_list : List Post) : ℚ :=
  let timestamps := (author_posts_list.map (·.timestamp)).mergeSort (fun a b => decide (a ≤ b))
  let time_span := timestamps.getLastD 0 - timestamps.headD 0
  let i1 : ℚ :=
    if 0 < time_span ∧
        20 < (author_posts_list.length : ℚ) / (time_span / 3600) then 3/10 else 0
  let texts := author_posts_list.map (·.text)
  let i2 : ℚ :=
    if 3 ≤ texts.length ∧ ((dedupList texts).length : ℚ) / (texts.length : ℚ) < 1/2
    then 3/10 else 0
  let intervals := (List.range (timestamps.length - 1)).map (fun i =>
    timestamps.getD (i + 1) 0 - timestamps.getD i 0)
  let avg_interval := sumList intervals / (intervals.length : ℚ)
  let variance := sumList (intervals.map (fun x => (x - avg_interval) ^ 2)) / (intervals.length : ℚ)
  let i3 : ℚ :=
    if 3 ≤ timestamps.length ∧ intervals ≠ [] ∧ 0 < avg_interval ∧ variance / avg_interval < 1/10
    then 2/10 else 0
  let url_frac := ((author_posts_list.countP (fun p => !p.urls.isEmpty)) : ℚ) /
    (author_posts_list.length : ℚ)
  let i4 : ℚ := if 8/10 < url_frac then 2/10 else 0
  min (i1 + i2 + i3 + i4) 1

/-- `calculate_bot_score`. -/
def calculate_bot_score (posts : List Post) : ℚ :=
  if posts = [] then 0
  else
    let bot_values := (groupPostsByAuthor posts).filterMap (fun kv =>
      if kv.2.length < 2 then none else some (botIndicators kv.2))
    if bot_values = [] then 0
    else pyRound4 (sumList bot_values / (bot_values.length : ℚ))

/-- The fixed toxic keyword set of `calculate_toxicity_score`. -/
def toxic_keywords : List String :=
  ["hate", "kill", "die", "attack", "destroy", "enemy", "threat",
   "dangerous", "evil", "corrupt", "conspiracy", "hoax", "fake",
   "propaganda", "lies", "traitor", "invasion", "war"]

/-- `calculate_toxicity_score`. -/
def calculate_toxicity_score (posts : List Post) : ℚ :=
  if posts = [] then 0
  else
    let wordLists := posts.map (fun p => pyWords (pyLower p.text))
    let total_words := sumList (wordLists.map (fun ws => (ws.length : ℚ)))
    let toxic_count := sumList (wordLists.map (fun ws =>
      ((ws.countP (fun w => decide (String.mk (w.filter Char.isAlphanum) ∈ toxic_keywords))) : ℚ)))
    if total_words = 0 then 0
    else pyRound4 (min ((toxic_count / total_words) / (5/100)) 1)

/-! ## Risk engine (risk/engine.py) -/

/-- `RiskEngine._generate_reasons`. -/
def generate_reasons (components : RiskComponents) (weights : RiskWeightsConfig) :
    List String :=
  let reasons :=
    (if 3/10 ≤ components.velocity then
      ["High posting velocity (" ++ fmt2 components.velocity ++ ") - contributes " ++
        fmt2 (weights.velocity * components.velocity) ++ " to risk"] else []) ++
    (if 3/10 ≤ components.coordination_density then
      ["Coordinated behavior detected (" ++ fmt2 components.coordination_density ++
        ") - contributes " ++
        fmt2 (weights.coordination_density * components.coordination_density) ++ " to risk"]
     else []) ++
    (if 3/10 ≤ components.bot_score then
      ["Bot-like activity patterns (" ++ fmt2 components.bot_score ++ ") - contributes " ++
        fmt2 (weights.bot_score * components.bot_score) ++ " to risk"] else []) ++
    (if 3/10 ≤ components.foreign_domain_ratio then
      ["High foreign domain ratio (" ++ fmt2 components.foreign_domain_ratio ++
        ") - contributes " ++
        fmt2 (weights.foreign_domain_ratio * components.foreign_domain_ratio) ++ " to risk"]
     else []) ++
    (if 3/10 ≤ components.toxicity then
      ["Toxic content indicators (" ++ fmt2 components.toxicity ++ ") - contributes " ++
        fmt2 (weights.toxicity * components.toxicity) ++ " to risk"] else [])
  if reasons = [] then ["No significant risk factors identified"] else reasons

/-- `RiskEngine._calculate_narrative_risk`: compute the five components, take
the weighted sum, classify against the thresholds, and round the emitted
score to 4 decimals. -/
def calculate_narrative_risk (settings : RiskConfig) (narrative : NarrativeMetadata)
    (posts : List Post) (groups : List CoordinatedGroup) : NarrativeRisk :=
  let weights := settings.weights
  let thresholds := settings.thresholds
  let components : RiskComponents :=
    { velocity := calculate_velocity_score posts narrative
      coordination_density :=
        calculate_coordination_score narrative.id groups narrative.author_count
      bot_score := calculate_bot_score posts
      foreign_domain_ratio := calculate_foreign_domain_score posts
      toxicity := calculate_toxicity_score posts }
  let risk_score :=
    weights.velocity * components.velocity
      + weights.coordination_density * components.coordination_density
      + weights.bot_score * components.bot_score
      + weights.foreign_domain_ratio * components.foreign_domain_ratio
      + weights.toxicity * components.toxicity
  let risk_level :=
    if thresholds.high ≤ risk_score then RiskLevel.HIGH
    else if thresholds.medium ≤ risk_score then RiskLevel.MEDIUM
    else RiskLevel.LOW
  { narrative_id := narrative.id
    risk_score := pyRound4 risk_score
    risk_level := risk_level
    components := components
    reasons := generate_reasons components weights }

/-- A one-hashtag post by author a at time 0, used as concrete input below. -/
def c8post1 : Post :=
  { id := "p1", timestamp := 0, author_id := "a", text := "",
    urls := [], domains := [], hashtags := ["x"] }

/-- A one-hashtag post by author b at time 0, used as concrete input below. -/
def c8post2 : Post :=
  { id := "p2", timestamp := 0, author_id := "b", text := "",
    urls := [], domains := [], hashtags := ["x"] }

/-! ## Claim C1: pair score is the maximum over qualifying pairs -/

lemma foldl_evidenceStep_scores (d : CoordinationDetector) (emb : Option (Nat → Nat → ℚ)) :
    ∀ (l : List ((Post × Nat) × (Post × Nat))) (acc : CoordinationEvidence × List ℚ),
    (l.foldl (evidenceStep d emb) acc).2 =
      acc.2 ++ (l.filter (qualifies d)).map (fun pp => combinedPairScore d emb pp.1 pp.2) := by
  intro l
  induction l with
  | nil => intro acc; simp
  | cons pp ps ih =>
    intro acc
    rw [List.foldl_cons]
    by_cases hq : |pp.1.1.timestamp - pp.2.1.timestamp| ≤ d.time_window_seconds
    · rw [List.filter_cons_of_pos (by simpa [qualifies] using hq)]
      rw [ih]
      unfold evidenceStep
      rw [if_pos hq]
      simp
    · rw [List.filter_cons_of_neg (by simpa [qualifies] using hq)]
      rw [ih]
      unfold evidenceStep
      rw [if_neg hq]

lemma foldl_evidenceStep_evidence_of_no_qualifying (d : CoordinationDetector)
    (emb : Option (Nat → Nat → ℚ)) :
    ∀ (l : List ((Post × Nat) × (Post × Nat))) (acc : CoordinationEvidence × List ℚ),
    l.filter (qualifies d) = [] → (l.foldl (evidenceStep d emb) acc).1 = acc.1 := by
  intro l
  induction l with
  | nil => intro acc _; simp
  | cons pp ps ih =>
    intro acc hfil
    by_cases hq : qualifies d pp = true
    · rw [List.filter_cons_of_pos hq] at hfil
      exact absurd hfil (by simp)
    · rw [List.filter_cons_of_neg (by simpa using hq)] at hfil
      rw [List.foldl_cons]
      have hstep : evidenceStep d emb acc pp = acc := by
        unfold evidenceStep
        rw [if_neg (by simpa [qualifies] using hq)]
      rw [hstep]
      exact ih acc hfil

/-- Claim C1: for two non-empty post lists, `_calculate_pair_score` returns
score `0.0` together with completely empty evidence when no cross-author post
pair lies within the time window, and otherwise returns the maximum combined
per-pair score (text, domain and hashtag similarities blended by the
configured weights) over all qualifying pairs. -/
theorem C1_pair_score_is_max_over_qualifying_pairs (d : CoordinationDetector)
    (posts1 posts2 : List (Post × Nat)) (emb : Option (Nat → Nat → ℚ))
    (h1 : posts1 ≠ []) (h2 : posts2 ≠ []) :
    (qualifyingPairs d posts1 posts2 = [] →
      d.calculate_pair_score posts1 posts2 emb = (0, ({} : CoordinationEvidence))) ∧
    (qualifyingPairs d posts1 posts2 ≠ [] →
      (d.calculate_pair_score posts1 posts2 emb).1 =
        listMax ((qualifyingPairs d posts1 posts2).map
          (fun pp => combinedPairScore d emb pp.1 pp.2))) := by
  have hscores := foldl_evidenceStep_scores d emb (postPairs posts1 posts2)
    (({} : CoordinationEvidence), [])
  constructor
  · intro hempty
    have hev := foldl_evidenceStep_evidence_of_no_qualifying d emb (postPairs posts1 posts2)
      (({} : CoordinationEvidence), []) hempty
    unfold CoordinationDetector.calculate_pair_score
    rw [if_pos]
    · rw [Prod.ext_iff]
      exact ⟨rfl, hev⟩
    · rw [hscores]
      unfold qualifyingPairs at hempty
      simp [hempty]
  · intro hne
    unfold CoordinationDetector.calculate_pair_score
    rw [if_neg]
    · rw [hscores]
      unfold qualifyingPairs at hne ⊢
      simp
    · rw [hscores]
      unfold qualifyingPairs at hne
      simpa using hne

/-- Witness for C1 at a concrete input: two singleton post lists whose only
cross pair is simultaneous and therefore qualifies. -/
theorem C1_witness :
    ([(c8post1, 0)] : List (Post × Nat)) ≠ [] ∧ ([(c8post2, 1)] : List (Post × Nat)) ≠ [] ∧
    ((qualifyingPairs defaultDetector [(c8post1, 0)] [(c8post2, 1)] = [] →
      defaultDetector.calculate_pair_score [(c8post1, 0)] [(c8post2, 1)] none =
        (0, ({} : CoordinationEvidence))) ∧
    (qualifyingPairs defaultDetector [(c8post1, 0)] [(c8post2, 1)] ≠ [] →
      (defaultDetector.calculate_pair_score [(c8post1, 0)] [(c8post2, 1)] none).1 =
        listMax ((qualifyingPairs defaultDetector [(c8post1, 0)] [(c8post2, 1)]).map
          (fun pp => combinedPairScore defaultDetector none pp.1 pp.2)))) :=
  ⟨by simp, by simp,
    C1_pair_score_is_max_over_qualifying_pairs defaultDetector
      [(c8post1, 0)] [(c8post2, 1)] none (by simp) (by simp)⟩

/-! ## Claim C2: a pair is emitted iff its score reaches the threshold -/

/-- Claim C2: within a narrative, an ordered author pair visited by the
detector loop is emitted as a `CoordinatedPair` if and only if its computed
score is greater than or equal to the configured similarity threshold; in
particular a score exactly equal to the threshold is included and one
strictly below it is excluded. -/
theorem C2_pair_emitted_iff_score_reaches_threshold (d : CoordinationDetector)
    (post_data : List (Post × Nat)) (emb : Option (Nat → Nat → ℚ)) (nid : String)
    (a1 a2 : String)
    (hmem : (a1, a2) ∈ pairsFrom ((groupByAuthor post_data).map (·.1))) :
    d.similarity_threshold ≤
      (d.calculate_pair_score (lookupPosts (groupByAuthor post_data) a1)
        (lookupPosts (groupByAuthor post_data) a2) emb).1 ↔
    ∃ p ∈ d.detect_pairs_in_narrative post_data emb nid,
      p.author1_id = a1 ∧ p.author2_id = a2 := by
  unfold CoordinationDetector.detect_pairs_in_narrative
  constructor
  · intro hth
    refine ⟨⟨a1, a2,
      (d.calculate_pair_score (lookupPosts (groupByAuthor post_data) a1)
        (lookupPosts (groupByAuthor post_data) a2) emb).1,
      (d.calculate_pair_score (lookupPosts (groupByAuthor post_data) a1)
        (lookupPosts (groupByAuthor post_data) a2) emb).2,
      some nid⟩, ?_, rfl, rfl⟩
    refine List.mem_filterMap.mpr ⟨(a1, a2), hmem, ?_⟩
    simp only [if_pos hth]
  · rintro ⟨p, hp, he1, he2⟩
    obtain ⟨ab, _, hfeq⟩ := List.mem_filterMap.mp hp
    simp only at hfeq
    split at hfeq
    · rename_i hth
      have hrec := Option.some.inj hfeq
      have hab1 : ab.1 = a1 := by rw [← he1, ← hrec]
      have hab2 : ab.2 = a2 := by rw [← he2, ← hrec]
      rw [hab1, hab2] at hth
      exact hth
    · exact absurd hfeq (by simp)

/-- Witness for C2 at a concrete input: two authors with one simultaneous
post each, so that the pair ("a", "b") is visited by the loop. -/
theorem C2_witness :
    (("a", "b") ∈ pairsFrom ((groupByAuthor [(c8post1, 0), (c8post2, 1)]).map (·.1))) ∧
    (defaultDetector.similarity_threshold ≤
      (defaultDetector.calculate_pair_score
        (lookupPosts (groupByAuthor [(c8post1, 0), (c8post2, 1)]) "a")
        (lookupPosts (groupByAuthor [(c8post1, 0), (c8post2, 1)]) "b") none).1 ↔
    ∃ p ∈ defaultDetector.detect_pairs_in_narrative [(c8post1, 0), (c8post2, 1)] none "n1",
      p.author1_id = "a" ∧ p.author2_id = "b") :=
  ⟨by simp [pairsFrom, groupByAuthor, assocAppend, c8post1, c8post2],
    C2_pair_emitted_iff_score_reaches_threshold defaultDetector
      [(c8post1, 0), (c8post2, 1)] none "n1" "a" "b"
      (by simp [pairsFrom, groupByAuthor, assocAppend, c8post1, c8post2])⟩

/-! ## Claim C10: falsy constructor arguments fall back to the defaults -/

/-- Claim C10: constructing a `CoordinationDetector` with the explicit falsy
arguments `time_window_minutes=0`, `similarity_threshold=0.0` and
`min_group_size=0` yields exactly the detector built from the configured
defaults (time window 60 minutes = 3600 seconds, threshold 0.85, minimum
group size 3), because `__init__` combines each argument with the settings
via Python `or`. -/
theorem C10_falsy_zero_arguments_use_defaults :
    CoordinationDetector.init defaultCoordinationConfig (some 0) (some 0) (some 0) =
      CoordinationDetector.init defaultCoordinationConfig none none none ∧
    (CoordinationDetector.init defaultCoordinationConfig
      (some 0) (some 0) (some 0)).time_window_seconds = 3600 ∧
    (CoordinationDetector.init defaultCoordinationConfig
      (some 0) (some 0) (some 0)).similarity_threshold = 0.85 ∧
    (CoordinationDetector.init defaultCoordinationConfig
      (some 0) (some 0) (some 0)).min_group_size = 3 := by
  refine ⟨rfl, ?_, rfl, rfl⟩
  norm_num [CoordinationDetector.init, pyOr, defaultCoordinationConfig]

/-! ## Claim C8: the evidence text_similarity field -/

/-- Claim C8 (code bug): on two simultaneous posts sharing one hashtag, with
no embeddings supplied, every qualifying pair's text similarity is `0.0`,
yet `_calculate_pair_score` stores `0.2` — the maximum COMBINED score
`0.5*0 + 0.3*0 + 0.2*1` — in the evidence field named `text_similarity`
(the code assigns `max(scores)`, the list of combined scores, to it). -/
theorem C8_text_similarity_field_holds_combined_score :
    (defaultDetector.calculate_pair_score [(c8post1, 0)] [(c8post2, 1)] none).2.text_similarity
        = some (1/5) ∧
    textSimOf none 0 1 = 0 ∧ (1/5 : ℚ) ≠ 0 := by
  refine ⟨?_, rfl, by norm_num⟩
  norm_num [CoordinationDetector.calculate_pair_score, postPairs, evidenceStep,
    combinedPairScore, textSimOf, jaccard, defaultDetector, CoordinationDetector.init,
    defaultCoordinationConfig, pyOr, listMax, dedupList, insertNew, c8post1, c8post2]

/-! ## Claims C6 and C9: risk score rounding and level thresholds -/

/-- The unrounded weighted sum of the five component scores, exactly as
`_calculate_narrative_risk` forms it before rounding. -/
def riskWeightedSum (cfg : RiskConfig) (narrative : NarrativeMetadata)
    (posts : List Post) (groups : List CoordinatedGroup) : ℚ :=
  cfg.weights.velocity * calculate_velocity_score posts narrative
    + cfg.weights.coordination_density *
        calculate_coordination_score narrative.id groups narrative.author_count
    + cfg.weights.bot_score * calculate_bot_score posts
    + cfg.weights.foreign_domain_ratio * calculate_foreign_domain_score posts
    + cfg.weights.toxicity * calculate_toxicity_score posts

/-- Narrative metadata for the concrete risk-engine input. -/
def riskNarrative : NarrativeMetadata := { id := "n", size := 2, author_count := 3 }

/-- First post of the concrete risk-engine input. -/
def riskPost1 : Post :=
  { id := "r1", timestamp := 0, author_id := "a", text := "hate",
    urls := [], domains := [], hashtags := [] }

/-- Second post of the concrete risk-engine input. -/
def riskPost2 : Post :=
  { id := "r2", timestamp := 0, author_id := "b", text := "hate",
    urls := [], domains := [], hashtags := [] }

/-- A coordinated group touching narrative n whose score is tuned so that
the weighted risk sum lands just below the medium threshold. -/
def riskGroup : CoordinatedGroup :=
  { id := "g", author_ids := ["x", "y", "z"], score := 583/1000,
    evidence_summary := "", narrative_ids := ["n"], size := 3 }

lemma velocity_eval : calculate_velocity_score [riskPost1, riskPost2] riskNarrative = 1 := by
  unfold calculate_velocity_score
  rw [if_neg (by simp)]
  norm_num [sortedTimestamps, riskPost1, riskPost2, List.mergeSort]

lemma coordination_eval : calculate_coordination_score "n" [riskGroup] 3 = 2083/2500 := by
  simp +decide [calculate_coordination_score, riskGroup, insertNew]
  norm_num [pyRound4]

lemma bot_eval : calculate_bot_score [riskPost1, riskPost2] = 0 := by
  simp +decide only [calculate_bot_score, groupPostsByAuthor, assocAppend, riskPost1, riskPost2,
    List.foldl_cons, List.foldl_nil, List.filterMap_cons, List.filterMap_nil]

lemma foreign_eval : calculate_foreign_domain_score [riskPost1, riskPost2] = 0 := by
  simp +decide only [calculate_foreign_domain_score, riskPost1, riskPost2, pyOrList,
    List.foldl_cons, List.foldl_nil]

lemma words_hate : pyWords (pyLower "hate") = [['h', 'a', 't', 'e']] := by decide

lemma tox_count_hate :
    List.countP (fun w => decide (String.mk (w.filter Char.isAlphanum) ∈ toxic_keywords))
      [['h', 'a', 't', 'e']] = 1 := by
  decide

lemma toxicity_eval : calculate_toxicity_score [riskPost1, riskPost2] = 1 := by
  unfold calculate_toxicity_score
  rw [if_neg (by simp)]
  simp only [riskPost1, riskPost2, List.map_cons, List.map_nil]
  rw [words_hate]
  rw [tox_count_hate]
  norm_num [sumList, pyRound4]

lemma riskWeightedSum_eval :
    riskWeightedSum defaultRiskConfig riskNarrative [riskPost1, riskPost2] [riskGroup] =
      14999/25000 := by
  have hn : riskNarrative.id = "n" := rfl
  have ha : riskNarrative.author_count = 3 := rfl
  rw [riskWeightedSum, hn, ha, velocity_eval, coordination_eval, bot_eval, foreign_eval,
    toxicity_eval]
  norm_num [defaultRiskConfig]

/-- Claim C9: the risk engine compares the unrounded weighted component sum
against the thresholds while emitting that sum rounded to 4 decimals, and on
the concrete input above the unrounded sum 0.59996 is strictly below the
default medium threshold 0.6, yet the emitted risk_score rounds up to
exactly 0.6 — so the record shows risk_score equal to the threshold with
risk_level LOW, the level below it. -/
theorem C9_rounded_score_meets_threshold_while_level_below :
    (calculate_narrative_risk defaultRiskConfig riskNarrative [riskPost1, riskPost2]
        [riskGroup]).risk_score =
      pyRound4 (riskWeightedSum defaultRiskConfig riskNarrative [riskPost1, riskPost2]
        [riskGroup]) ∧
    riskWeightedSum defaultRiskConfig riskNarrative [riskPost1, riskPost2] [riskGroup] <
      defaultRiskConfig.thresholds.medium ∧
    (calculate_narrative_risk defaultRiskConfig riskNarrative [riskPost1, riskPost2]
        [riskGroup]).risk_score = defaultRiskConfig.thresholds.medium ∧
    (calculate_narrative_risk defaultRiskConfig riskNarrative [riskPost1, riskPost2]
        [riskGroup]).risk_level = RiskLevel.LOW := by
  refine ⟨rfl, ?_, ?_, ?_⟩
  · rw [riskWeightedSum_eval]
    norm_num [defaultRiskConfig]
  · show pyRound4 (riskWeightedSum defaultRiskConfig riskNarrative [riskPost1, riskPost2]
      [riskGroup]) = defaultRiskConfig.thresholds.medium
    rw [riskWeightedSum_eval]
    norm_num [pyRound4, defaultRiskConfig]
  · show (if defaultRiskConfig.thresholds.high ≤ riskWeightedSum defaultRiskConfig
        riskNarrative [riskPost1, riskPost2] [riskGroup] then RiskLevel.HIGH
      else if defaultRiskConfig.thresholds.medium ≤ riskWeightedSum defaultRiskConfig
        riskNarrative [riskPost1, riskPost2] [riskGroup] then RiskLevel.MEDIUM
      else RiskLevel.LOW) = RiskLevel.LOW
    rw [riskWeightedSum_eval]
    norm_num [defaultRiskConfig]

/-- Counterexample to claim C6 as stated: a narrative whose emitted
risk_score equals the default medium threshold 0.6 exactly, yet whose
risk_level is LOW, not MEDIUM — the level was derived from the unrounded
sum 0.59996, not from the emitted risk_score. -/
theorem C6_counterexample_score_at_threshold_level_below :
    (calculate_narrative_risk defaultRiskConfig riskNarrative [riskPost1, riskPost2]
        [riskGroup]).risk_score = 3/5 ∧
    defaultRiskConfig.thresholds.medium ≤ 3/5 ∧
    (calculate_narrative_risk defaultRiskConfig riskNarrative [riskPost1, riskPost2]
        [riskGroup]).risk_level = RiskLevel.LOW ∧
    RiskLevel.LOW ≠ RiskLevel.MEDIUM := by
  refine ⟨?_, by norm_num [defaultRiskConfig], ?_, by decide⟩
  · show pyRound4 (riskWeightedSum defaultRiskConfig riskNarrative [riskPost1, riskPost2]
      [riskGroup]) = 3/5
    rw [riskWeightedSum_eval]
    norm_num [pyRound4]
  · show (if defaultRiskConfig.thresholds.high ≤ riskWeightedSum defaultRiskConfig
        riskNarrative [riskPost1, riskPost2] [riskGroup] then RiskLevel.HIGH
      else if defaultRiskConfig.thresholds.medium ≤ riskWeightedSum defaultRiskConfig
        riskNarrative [riskPost1, riskPost2] [riskGroup] then RiskLevel.MEDIUM
      else RiskLevel.LOW) = RiskLevel.LOW
    rw [riskWeightedSum_eval]
    norm_num [defaultRiskConfig]

/-- Claim C6 as amended: the emitted risk_score is the weighted component
sum rounded to 4 decimals, while the risk level is HIGH/MEDIUM/LOW by
comparing the UNROUNDED weighted sum against the high then medium
thresholds. -/
theorem C6_amended_level_from_unrounded_weighted_sum (cfg : RiskConfig)
    (narrative : NarrativeMetadata) (posts : List Post) (groups : List CoordinatedGroup) :
    (calculate_narrative_risk cfg narrative posts groups).risk_score =
      pyRound4 (riskWeightedSum cfg narrative posts groups) ∧
    (calculate_narrative_risk cfg narrative posts groups).risk_level =
      (if cfg.thresholds.high ≤ riskWeightedSum cfg narrative posts groups then RiskLevel.HIGH
       else if cfg.thresholds.medium ≤ riskWeightedSum cfg narrative posts groups then
         RiskLevel.MEDIUM
       else RiskLevel.LOW) := ⟨rfl, rfl⟩

/-! ## Claim C7: the velocity score formula -/

/-- The burst-anchor count as claim C7 words it: the number of posts that
have at least 5 posts (including themselves) with a timestamp inside the
trailing 15-minute window `[t, t + 900]` starting at their own timestamp. -/
def claimBurstCount (timestamps : List ℚ) : Nat :=
  timestamps.countP (fun t =>
    decide (5 ≤ timestamps.countP (fun u => decide (t ≤ u ∧ u ≤ t + 900))))

/-- The velocity score exactly as claim C7 states it, with the burst ratio
taken over all posts whose timestamp falls in the trailing window. -/
def claimVelocity (posts : List Post) : ℚ :=
  if posts.length < 2 then 0
  else
    let timestamps := sortedTimestamps posts
    let time_span := timestamps.getLastD 0 - timestamps.headD 0
    if time_span = 0 then 1
    else
      pyRound4 (min (min ((posts.length : ℚ) / (time_span / 3600) / 10) 1
        + ((claimBurstCount timestamps : ℚ) / (posts.length : ℚ)) * (2/10)) 1)

/-- A minimal anonymous post at a given time, for velocity inputs. -/
def tpost (i : String) (t : ℚ) : Post :=
  { id := i, timestamp := t, author_id := i, text := "",
    urls := [], domains := [], hashtags := [] }

/-- Five simultaneous posts and one much later: the claim's burst reading
marks all five simultaneous posts as anchors, the code marks only the first
position of the sorted suffix scan. -/
def c7posts : List Post :=
  [tpost "q1" 0, tpost "q2" 0, tpost "q3" 0, tpost "q4" 0, tpost "q5" 0, tpost "q6" 7200]

/-- Counterexample to claim C7 as stated: on five simultaneous posts plus a
sixth two hours later, the code's suffix-based burst count yields velocity
0.3333, while the claim's window-membership burst count yields 0.4667. -/
theorem C7_counterexample_duplicate_timestamps :
    calculate_velocity_score c7posts riskNarrative = 3333/10000 ∧
    claimVelocity c7posts = 4667/10000 ∧
    codeBurstCount (sortedTimestamps c7posts) = 1 ∧
    claimBurstCount (sortedTimestamps c7posts) = 5 ∧
    (3333/10000 : ℚ) ≠ 4667/10000 := by
  have hsort : sortedTimestamps c7posts = [0, 0, 0, 0, 0, 7200] := by
    norm_num [sortedTimestamps, c7posts, tpost, List.mergeSort]
  have hcode : codeBurstCount (sortedTimestamps c7posts) = 1 := by
    rw [hsort]
    norm_num [codeBurstCount, List.countP, List.countP.go, List.range]
  have hclaim : claimBurstCount (sortedTimestamps c7posts) = 5 := by
    rw [hsort]
    norm_num [claimBurstCount, List.countP, List.countP.go]
  refine ⟨?_, ?_, hcode, hclaim, by norm_num⟩
  · unfold calculate_velocity_score
    rw [if_neg (by simp [c7posts])]
    rw [hsort] at hcode ⊢
    have hnil6 : (([0, 0, 0, 0, 0, 7200] : List ℚ) = []) = False := eq_false (by simp)
    norm_num [c7posts, pyRound4, hcode, hnil6]
  · unfold claimVelocity
    rw [if_neg (by simp [c7posts])]
    rw [hsort] at hclaim ⊢
    norm_num [c7posts, pyRound4, hclaim]

/-- Claim C7 as amended: the velocity score is 0.0 for fewer than 2 posts,
1.0 when the sorted timestamp span is zero, and otherwise
`round4(min(min(posts_per_hour/10, 1) + burst_ratio*0.2, 1))` where the
burst ratio counts, for each position `i` of the SORTED timestamp list, the
positions `j ≥ i` (so duplicates of the same timestamp earlier in sort
order are not counted) within 900 seconds. -/
theorem C7_amended_velocity_formula (posts : List Post) (narrative : NarrativeMetadata) :
    (posts.length < 2 → calculate_velocity_score posts narrative = 0) ∧
    (2 ≤ posts.length →
      (sortedTimestamps posts).getLastD 0 - (sortedTimestamps posts).headD 0 = 0 →
      calculate_velocity_score posts narrative = 1) ∧
    (2 ≤ posts.length →
      0 < (sortedTimestamps posts).getLastD 0 - (sortedTimestamps posts).headD 0 →
      calculate_velocity_score posts narrative =
        pyRound4 (min (min ((posts.length : ℚ) /
            (((sortedTimestamps posts).getLastD 0 - (sortedTimestamps posts).headD 0) / 3600)
            / 10) 1
          + ((codeBurstCount (sortedTimestamps posts) : ℚ) /
              ((sortedTimestamps posts).length : ℚ)) * (2/10)) 1)) := by
  refine ⟨?_, ?_, ?_⟩
  · intro hlt
    unfold calculate_velocity_score
    rw [if_pos (Or.inr hlt)]
  · intro hge hspan
    have hguard : ¬(posts = [] ∨ posts.length < 2) := by
      rintro (rfl | hlt)
      · simp at hge
      · omega
    unfold calculate_velocity_score
    rw [if_neg hguard]
    simp only [hspan]
    norm_num
  · intro hge hspan
    have hguard : ¬(posts = [] ∨ posts.length < 2) := by
      rintro (rfl | hlt)
      · simp at hge
      · omega
    have hne : sortedTimestamps posts ≠ [] := by
      intro hnil
      have h1 := congrArg List.length hnil
      rw [sortedTimestamps, List.length_mergeSort, List.length_map, List.length_nil] at h1
      omega
    unfold calculate_velocity_score
    rw [if_neg hguard]
    rw [if_neg (by linarith), if_neg hne]

/-- Witness for the amended claim C7 at the concrete six-post input. -/
theorem C7_amended_witness :
    2 ≤ c7posts.length ∧
    0 < (sortedTimestamps c7posts).getLastD 0 - (sortedTimestamps c7posts).headD 0 ∧
    calculate_velocity_score c7posts riskNarrative =
      pyRound4 (min (min ((c7posts.length : ℚ) /
          (((sortedTimestamps c7posts).getLastD 0 - (sortedTimestamps c7posts).headD 0) / 3600)
          / 10) 1
        + ((codeBurstCount (sortedTimestamps c7posts) : ℚ) /
            ((sortedTimestamps c7posts).length : ℚ)) * (2/10)) 1) :=
  ⟨by simp [c7posts],
    by norm_num [sortedTimestamps, c7posts, tpost, List.mergeSort],
    (C7_amended_velocity_formula c7posts riskNarrative).2.2 (by simp [c7posts])
      (by norm_num [sortedTimestamps, c7posts, tpost, List.mergeSort])⟩

/-! ## Claim C3: a component is emitted iff it reaches the minimum size -/

lemma mkGroup_author_ids (pairs : List CoordinatedPair) (gid : Nat) (comp : List String) :
    (mkGroup pairs gid comp).author_ids = comp := rfl

lemma buildLoop_mem_iff (d : CoordinationDetector) (pairs : List CoordinatedPair) :
    ∀ (authors visited : List String) (gid : Nat) (comp : List String),
    (∃ g ∈ buildLoop d pairs authors visited gid, g.author_ids = comp) ↔
      (comp ∈ compLoop pairs authors visited ∧ d.min_group_size ≤ (comp.length : ℤ)) := by
  intro authors
  induction authors with
  | nil => intro visited gid comp; simp [buildLoop, compLoop]
  | cons a rest ih =>
    intro visited gid comp
    by_cases hv : a ∈ visited
    · rw [buildLoop, compLoop, if_pos hv, if_pos hv]
      exact ih visited gid comp
    · rw [buildLoop, compLoop, if_neg hv, if_neg hv]
      by_cases hsz : d.min_group_size ≤ (((bfs pairs [a] visited).1.length : ℕ) : ℤ)
      · rw [if_pos hsz]
        simp only [List.mem_cons]
        constructor
        · rintro ⟨g, hg | hg, hauth⟩
          · refine ⟨Or.inl ?_, ?_⟩
            · rw [← hauth, hg, mkGroup_author_ids]
            · rw [← hauth, hg, mkGroup_author_ids]
              exact hsz
          · have := (ih (bfs pairs [a] visited).2 (gid + 1) comp).mp ⟨g, hg, hauth⟩
            exact ⟨Or.inr this.1, this.2⟩
        · rintro ⟨hc | hc, hlen⟩
          · exact ⟨mkGroup pairs gid (bfs pairs [a] visited).1, Or.inl rfl, by
              rw [mkGroup_author_ids, hc]⟩
          · obtain ⟨g, hg, hauth⟩ := (ih (bfs pairs [a] visited).2 (gid + 1) comp).mpr ⟨hc, hlen⟩
            exact ⟨g, Or.inr hg, hauth⟩
      · rw [if_neg hsz]
        rw [ih (bfs pairs [a] visited).2 gid comp]
        simp only [List.mem_cons]
        constructor
        · rintro ⟨hc, hlen⟩
          exact ⟨Or.inr hc, hlen⟩
        · rintro ⟨hc | hc, hlen⟩
          · exact absurd (hc ▸ hlen) hsz
          · exact ⟨hc, hlen⟩

/-- Claim C3: `_build_groups` outputs a group whose member list is a given
breadth-first component if and only if that component's size is at least the
configured minimum group size; components one short of the minimum never
appear, components meeting it always do. -/
theorem C3_group_emitted_iff_component_reaches_min_size (d : CoordinationDetector)
    (pairs : List CoordinatedPair) (comp : List String) :
    (∃ g ∈ d.build_groups pairs, g.author_ids = comp) ↔
      (comp ∈ bfsComponents pairs ∧ d.min_group_size ≤ (comp.length : ℤ)) := by
  unfold CoordinationDetector.build_groups bfsComponents
  by_cases hp : pairs = []
  · subst hp
    simp [graphKeys, compLoop]
  · rw [if_neg hp]
    have hperm : ∀ g : CoordinatedGroup,
        g ∈ (buildLoop d pairs (graphKeys pairs) [] 0).mergeSort
          (fun g1 g2 => decide (g2.score ≤ g1.score)) ↔
        g ∈ buildLoop d pairs (graphKeys pairs) [] 0 := by
      intro g
      exact List.mem_mergeSort
    constructor
    · rintro ⟨g, hg, hauth⟩
      exact (buildLoop_mem_iff d pairs (graphKeys pairs) [] 0 comp).mp
        ⟨g, (hperm g).mp hg, hauth⟩
    · intro h
      obtain ⟨g, hg, hauth⟩ := (buildLoop_mem_iff d pairs (graphKeys pairs) [] 0 comp).mpr h
      exact ⟨g, (hperm g).mpr hg, hauth⟩

/-! ## Claim C4: group narrative_ids and overwritten pair records -/

/-- The narrative-collection step of `_build_groups`: add a pair's narrative
ID to the set when it is truthy (not None and not the empty string). -/
def narrStep (acc : List String) (p : CoordinatedPair) : List String :=
  match p.narrative_id with
  | some nid => if nid = "" then acc else insertNew acc nid
  | none => acc

lemma mem_foldl_narrStep (n : String) :
    ∀ (l : List CoordinatedPair) (acc : List String),
    n ∈ l.foldl narrStep acc ↔
      n ∈ acc ∨ ∃ p ∈ l, p.narrative_id = some n ∧ n ≠ "" := by
  intro l
  induction l with
  | nil => intro acc; simp
  | cons p ps ih =>
    intro acc
    rw [List.foldl_cons, ih]
    have hstep : n ∈ narrStep acc p ↔ n ∈ acc ∨ (p.narrative_id = some n ∧ n ≠ "") := by
      cases hn : p.narrative_id with
      | none => simp [narrStep, hn]
      | some nid =>
        by_cases he : nid = ""
        · subst he
          simp only [narrStep, hn]
          rw [if_pos trivial]
          constructor
          · exact Or.inl
          · rintro (h | ⟨hq, hne⟩)
            · exact h
            · exact absurd (Option.some.inj hq).symm hne
        · simp only [narrStep, hn]
          rw [if_neg he, mem_insertNew]
          constructor
          · rintro (h | rfl)
            · exact Or.inl h
            · exact Or.inr ⟨rfl, he⟩
          · rintro (h | ⟨hq, hne⟩)
            · exact Or.inl h
            · exact Or.inr (Option.some.inj hq).symm
    rw [hstep]
    constructor
    · rintro ((h | h) | ⟨q, hq, hh⟩)
      · exact Or.inl h
      · exact Or.inr ⟨p, by simp, h⟩
      · exact Or.inr ⟨q, by simp [hq], hh⟩
    · rintro (h | ⟨q, hq, hh⟩)
      · exact Or.inl (Or.inl h)
      · rcases List.mem_cons.mp hq with rfl | hq2
        · exact Or.inl (Or.inr hh)
        · exact Or.inr ⟨q, hq2, hh⟩

lemma mkGroup_mem_narrative_ids (pairs : List CoordinatedPair) (gid : Nat)
    (comp : List String) (n : String) :
    n ∈ (mkGroup pairs gid comp).narrative_ids ↔
      ∃ ab ∈ pairsFrom comp, ∃ p, pairLookup pairs (sortKey2 ab.1 ab.2) = some p ∧
        p.narrative_id = some n ∧ n ≠ "" := by
  show n ∈ ((pairsFrom comp).filterMap
      (fun ab => pairLookup pairs (sortKey2 ab.1 ab.2))).foldl narrStep [] ↔ _
  rw [mem_foldl_narrStep]
  simp only [List.mem_filterMap, List.mem_nil_iff, false_or]
  constructor
  · rintro ⟨p, ⟨ab, hab, hlook⟩, hn, hne⟩
    exact ⟨ab, hab, p, hlook, hn, hne⟩
  · rintro ⟨ab, hab, p, hlook, hn, hne⟩
    exact ⟨p, ⟨ab, hab, hlook⟩, hn, hne⟩

lemma buildLoop_shape (d : CoordinationDetector) (pairs : List CoordinatedPair) :
    ∀ (authors visited : List String) (gid : Nat) (g : CoordinatedGroup),
    g ∈ buildLoop d pairs authors visited gid →
      ∃ n comp, g = mkGroup pairs n comp := by
  intro authors
  induction authors with
  | nil => intro visited gid g hg; simp [buildLoop] at hg
  | cons a rest ih =>
    intro visited gid g hg
    rw [buildLoop] at hg
    by_cases hv : a ∈ visited
    · rw [if_pos hv] at hg
      exact ih visited gid g hg
    · rw [if_neg hv] at hg
      by_cases hsz : d.min_group_size ≤ (((bfs pairs [a] visited).1.length : ℕ) : ℤ)
      · rw [if_pos hsz] at hg
        rcases List.mem_cons.mp hg with rfl | hg2
        · exact ⟨gid, (bfs pairs [a] visited).1, rfl⟩
        · exact ih (bfs pairs [a] visited).2 (gid + 1) g hg2
      · rw [if_neg hsz] at hg
        exact ih (bfs pairs [a] visited).2 gid g hg

lemma build_groups_shape (d : CoordinationDetector) (pairs : List CoordinatedPair)
    (g : CoordinatedGroup) (hg : g ∈ d.build_groups pairs) :
    ∃ n comp, g = mkGroup pairs n comp := by
  unfold CoordinationDetector.build_groups at hg
  by_cases hp : pairs = []
  · rw [if_pos hp] at hg
    simp at hg
  · rw [if_neg hp] at hg
    exact buildLoop_shape d pairs (graphKeys pairs) [] 0 g (List.mem_mergeSort.mp hg)

/-- Claim C4 as amended: a narrative ID appears in an emitted group's
narrative_ids exactly when some intra-component author pair's entry in the
canonical pair map — which holds only the LAST `CoordinatedPair` record per
unordered author pair, later records overwriting earlier ones — carries that
(non-empty) narrative ID. -/
theorem C4_amended_narrative_ids_from_last_record_per_pair (d : CoordinationDetector)
    (pairs : List CoordinatedPair) (g : CoordinatedGroup)
    (hg : g ∈ d.build_groups pairs) (n : String) :
    n ∈ g.narrative_ids ↔
      ∃ ab ∈ pairsFrom g.author_ids, ∃ p, pairLookup pairs (sortKey2 ab.1 ab.2) = some p ∧
        p.narrative_id = some n ∧ n ≠ "" := by
  obtain ⟨gid, comp, rfl⟩ := build_groups_shape d pairs g hg
  rw [mkGroup_author_ids]
  exact mkGroup_mem_narrative_ids pairs gid comp n

/-- Pair (a, b) found in narrative n1 — overwritten in the pair map by the
next record. -/
def c4p1 : CoordinatedPair :=
  { author1_id := "a", author2_id := "b", score := 9/10, evidence := {},
    narrative_id := some "n1" }

/-- Pair (a, b) found again in narrative n2: same unordered author pair,
second record. -/
def c4p2 : CoordinatedPair :=
  { author1_id := "a", author2_id := "b", score := 9/10, evidence := {},
    narrative_id := some "n2" }

/-- Pair (b, c) in narrative n2, linking the third author. -/
def c4p3 : CoordinatedPair :=
  { author1_id := "b", author2_id := "c", score := 9/10, evidence := {},
    narrative_id := some "n2" }

/-- The three pair records of the C4 counterexample. -/
def c4pairs : List CoordinatedPair := [c4p1, c4p2, c4p3]

/-- The single group the builder emits on `c4pairs`. -/
def c4group : CoordinatedGroup := mkGroup c4pairs 0 ["a", "b", "c"]

lemma c4_build_eval : defaultDetector.build_groups c4pairs = [c4group] := by
  simp +decide [CoordinationDetector.build_groups, buildLoop, bfs, graphKeys, neighbors,
    neighborsStep, insertNew, c4pairs, c4p1, c4p2, c4p3, defaultDetector,
    CoordinationDetector.init, defaultCoordinationConfig, pyOr, List.mergeSort, c4group]

/-- Counterexample to claim C4 as stated: on three pair records — (a,b) in
narrative n1, (a,b) again in n2, and (b,c) in n2 — the emitted group covers
all three records' endpoints, yet its narrative_ids is only ["n2"]: the n1
record was overwritten in the pair map by the later (a,b) record, so the
narrative union over ALL intra-component pair records (which contains n1)
is not what the code emits. -/
theorem C4_counterexample_overwritten_narrative_lost :
    (defaultDetector.build_groups c4pairs).map (fun g => g.narrative_ids) = [["n2"]] ∧
    (defaultDetector.build_groups c4pairs).map (fun g => g.author_ids) = [["a", "b", "c"]] ∧
    c4p1 ∈ c4pairs ∧ c4p1.narrative_id = some "n1" ∧
    c4p1.author1_id ∈ (["a", "b", "c"] : List String) ∧
    c4p1.author2_id ∈ (["a", "b", "c"] : List String) ∧
    "n1" ∉ (["n2"] : List String) := by
  refine ⟨?_, ?_, by simp [c4pairs], rfl, by simp [c4p1], by simp [c4p1], by simp⟩
  · rw [c4_build_eval]
    simp +decide [c4group, mkGroup, pairsFrom, sortKey2, strLt, strLtAux, pairLookup,
      insertNew, narrStep, c4pairs, c4p1, c4p2, c4p3]
  · rw [c4_build_eval]
    simp [c4group, mkGroup_author_ids]

/-- Witness for the amended claim C4 at the concrete three-record input. -/
theorem C4_amended_witness :
    c4group ∈ defaultDetector.build_groups c4pairs ∧
    ("n2" ∈ c4group.narrative_ids ↔
      ∃ ab ∈ pairsFrom c4group.author_ids, ∃ p,
        pairLookup c4pairs (sortKey2 ab.1 ab.2) = some p ∧
        p.narrative_id = some "n2" ∧ "n2" ≠ "") :=
  ⟨by rw [c4_build_eval]; simp,
    C4_amended_narrative_ids_from_last_record_per_pair defaultDetector c4pairs c4group
      (by rw [c4_build_eval]; simp) "n2"⟩

/-! ## Claim C5: score bounds -/

lemma foldl_preserve {α β : Type} (P : β → Prop) (f : β → α → β) :
    ∀ (l : List α) (acc : β), P acc → (∀ b a, a ∈ l → P b → P (f b a)) →
    P (l.foldl f acc) := by
  intro l
  induction l with
  | nil => intro acc h0 _; simpa using h0
  | cons a as ih =>
    intro acc h0 hstep
    rw [List.foldl_cons]
    exact ih (f acc a) (hstep acc a (by simp) h0)
      (fun b x hx hb => hstep b x (by simp [hx]) hb)

lemma foldl_add_init (l : List ℚ) : ∀ (acc : ℚ), l.foldl (· + ·) acc = acc + l.foldl (· + ·) 0 := by
  induction l with
  | nil => intro acc; simp
  | cons x xs ih =>
    intro acc
    rw [List.foldl_cons, List.foldl_cons, ih (acc + x), ih (0 + x)]
    ring

lemma sumList_cons (x : ℚ) (xs : List ℚ) : sumList (x :: xs) = x + sumList xs := by
  unfold sumList
  rw [List.foldl_cons, foldl_add_init]
  ring

lemma sumList_nonneg : ∀ (l : List ℚ), (∀ x ∈ l, 0 ≤ x) → 0 ≤ sumList l := by
  intro l
  induction l with
  | nil => intro _; simp [sumList]
  | cons x xs ih =>
    intro h
    rw [sumList_cons]
    have h1 := h x (by simp)
    have h2 := ih (fun y hy => h y (by simp [hy]))
    linarith

lemma sumList_le_length_mul : ∀ (l : List ℚ) (c : ℚ), (∀ x ∈ l, x ≤ c) →
    sumList l ≤ (l.length : ℚ) * c := by
  intro l
  induction l with
  | nil => intro c _; simp [sumList]
  | cons x xs ih =>
    intro c h
    rw [sumList_cons]
    have h1 := h x (by simp)
    have h2 := ih c (fun y hy => h y (by simp [hy]))
    simp only [List.length_cons]
    push_cast
    linarith

lemma average_bounds (l : List ℚ) (hne : l ≠ []) (h : ∀ x ∈ l, 0 ≤ x ∧ x ≤ 1) :
    0 ≤ sumList l / (l.length : ℚ) ∧ sumList l / (l.length : ℚ) ≤ 1 := by
  have hlen : 0 < (l.length : ℚ) := by
    have : 0 < l.length := List.length_pos.mpr hne
    exact_mod_cast this
  constructor
  · exact div_nonneg (sumList_nonneg l (fun x hx => (h x hx).1)) (le_of_lt hlen)
  · rw [div_le_one hlen]
    have := sumList_le_length_mul l 1 (fun x hx => (h x hx).2)
    simpa using this

lemma pyRound4_bounds {q : ℚ} (h0 : 0 ≤ q) (h1 : q ≤ 1) :
    0 ≤ pyRound4 q ∧ pyRound4 q ≤ 1 := by
  have hr0 : 0 ≤ q * 10000 := by linarith
  have hr1 : q * 10000 ≤ 10000 := by linarith
  have hf0 : (0 : ℤ) ≤ ⌊q * 10000⌋ := Int.floor_nonneg.mpr hr0
  have hfub : ⌊q * 10000⌋ ≤ 10000 := by
    have := Int.floor_le_floor hr1
    simpa using this
  have hker : ∀ n : ℤ, 0 ≤ n → n ≤ 10000 → 0 ≤ (n : ℚ) / 10000 ∧ (n : ℚ) / 10000 ≤ 1 := by
    intro n hn0 hn1
    constructor
    · positivity
    · rw [div_le_one (by norm_num)]
      exact_mod_cast hn1
  have heq : pyRound4 q =
      (((if q * 10000 - (⌊q * 10000⌋ : ℚ) < 1/2 then ⌊q * 10000⌋
        else if 1/2 < q * 10000 - (⌊q * 10000⌋ : ℚ) then ⌊q * 10000⌋ + 1
        else if ⌊q * 10000⌋ % 2 = 0 then ⌊q * 10000⌋ else ⌊q * 10000⌋ + 1) : ℤ) : ℚ)
        / 10000 := rfl
  rw [heq]
  by_cases hc1 : q * 10000 - (⌊q * 10000⌋ : ℚ) < 1/2
  · rw [if_pos hc1]
    exact hker _ hf0 hfub
  · rw [if_neg hc1]
    have hne : ⌊q * 10000⌋ ≠ 10000 := by
      intro he
      apply hc1
      have : q * 10000 - (⌊q * 10000⌋ : ℚ) ≤ 0 := by
        rw [he]
        push_cast
        linarith
      linarith
    by_cases hc2 : 1/2 < q * 10000 - (⌊q * 10000⌋ : ℚ)
    · rw [if_pos hc2]
      exact hker _ (by omega) (by omega)
    · rw [if_neg hc2]
      by_cases hc3 : ⌊q * 10000⌋ % 2 = 0
      · rw [if_pos hc3]
        exact hker _ hf0 hfub
      · rw [if_neg hc3]
        exact hker _ (by omega) (by omega)

lemma listMax_le (c : ℚ) : ∀ (l : List ℚ), l ≠ [] → (∀ x ∈ l, x ≤ c) → listMax l ≤ c := by
  have haux : ∀ (xs : List ℚ) (acc : ℚ), acc ≤ c → (∀ x ∈ xs, x ≤ c) →
      xs.foldl max acc ≤ c := by
    intro xs
    induction xs with
    | nil => intro acc h0 _; simpa using h0
    | cons x rest ih =>
      intro acc h0 h
      rw [List.foldl_cons]
      exact ih (max acc x) (max_le h0 (h x (by simp)))
        (fun y hy => h y (by simp [hy]))
  intro l hne h
  match l with
  | [] => exact absurd rfl hne
  | x :: xs =>
    unfold listMax
    exact haux xs x (h x (by simp)) (fun y hy => h y (by simp [hy]))

lemma jaccard_bounds (xs ys : List String) : 0 ≤ jaccard xs ys ∧ jaccard xs ys ≤ 1 := by
  unfold jaccard
  have hden : (0 : ℚ) < ((max (xs.toFinset ∪ ys.toFinset).card 1 : ℕ) : ℚ) := by
    have : 1 ≤ max (xs.toFinset ∪ ys.toFinset).card 1 := le_max_right _ _
    exact_mod_cast lt_of_lt_of_le zero_lt_one (by exact_mod_cast this)
  constructor
  · positivity
  · rw [div_le_one hden]
    have hsub : (xs.toFinset ∩ ys.toFinset).card ≤ (xs.toFinset ∪ ys.toFinset).card :=
      Finset.card_le_card (le_trans Finset.inter_subset_union (le_refl _))
    have : (xs.toFinset ∩ ys.toFinset).card ≤ max (xs.toFinset ∪ ys.toFinset).card 1 :=
      le_trans hsub (le_max_left _ _)
    exact_mod_cast this

lemma velocity_bounds (posts : List Post) (narrative : NarrativeMetadata) :
    0 ≤ calculate_velocity_score posts narrative ∧
      calculate_velocity_score posts narrative ≤ 1 := by
  unfold calculate_velocity_score
  by_cases h1 : posts = [] ∨ posts.length < 2
  · rw [if_pos h1]
    norm_num
  · rw [if_neg h1]
    by_cases h2 : (sortedTimestamps posts).getLastD 0 - (sortedTimestamps posts).headD 0 ≤ 0
    · rw [if_pos h2]
      norm_num
    · rw [if_neg h2]
      push_neg at h2
      have hspanpos : (0 : ℚ) <
          ((sortedTimestamps posts).getLastD 0 - (sortedTimestamps posts).headD 0) / 3600 :=
        div_pos h2 (by norm_num)
      have hpph : (0 : ℚ) ≤ (posts.length : ℚ) /
          (((sortedTimestamps posts).getLastD 0 - (sortedTimestamps posts).headD 0) / 3600)
          / 10 :=
        div_nonneg (div_nonneg (Nat.cast_nonneg _) hspanpos.le) (by norm_num)
      have hb : (0 : ℚ) ≤ (if sortedTimestamps posts = [] then 0 else
          (codeBurstCount (sortedTimestamps posts) : ℚ) /
            ((sortedTimestamps posts).length : ℚ)) := by
        split
        · exact le_refl 0
        · positivity
      exact pyRound4_bounds
        (le_min (add_nonneg (le_min hpph zero_le_one) (mul_nonneg hb (by norm_num)))
          zero_le_one)
        (min_le_right _ _)

lemma coordination_bounds (nid : String) (groups : List CoordinatedGroup) (total : ℤ)
    (hg : ∀ g ∈ groups, 0 ≤ g.score ∧ 0 ≤ g.size) :
    0 ≤ calculate_coordination_score nid groups total ∧
      calculate_coordination_score nid groups total ≤ 1 := by
  unfold calculate_coordination_score
  by_cases h1 : total ≤ 1
  · rw [if_pos h1]
    norm_num
  · rw [if_neg h1]
    by_cases h2 : groups.filter (fun g => decide (nid ∈ g.narrative_ids)) = []
    · rw [if_pos h2]
      norm_num
    · rw [if_neg h2]
      push_neg at h1
      have htot : (0 : ℚ) < (total : ℤ) := by exact_mod_cast lt_trans zero_lt_one h1
      have htgs : 0 ≤ (groups.filter (fun g => decide (nid ∈ g.narrative_ids))).foldl
          (fun t g => t + g.score * (g.size : ℚ)) 0 := by
        refine foldl_preserve (fun t => 0 ≤ t) _ _ 0 (le_refl 0) ?_
        intro t g hgm ht
        have hge := hg g (List.mem_filter.mp hgm).1
        have : (0 : ℚ) ≤ (g.size : ℤ) := by exact_mod_cast hge.2
        nlinarith [hge.1]
      have hratio : (0 : ℚ) ≤ (((groups.filter (fun g => decide (nid ∈ g.narrative_ids))).foldl
          (fun s g => g.author_ids.foldl insertNew s) []).length : ℚ) / ((total : ℤ) : ℚ) :=
        div_nonneg (Nat.cast_nonneg _) htot.le
      have havg : (0 : ℚ) ≤ (if (groups.filter (fun g => decide (nid ∈ g.narrative_ids))).foldl
            (fun s g => g.author_ids.foldl insertNew s) [] = [] then 0
          else ((groups.filter (fun g => decide (nid ∈ g.narrative_ids))).foldl
              (fun t g => t + g.score * (g.size : ℚ)) 0) /
            ((((groups.filter (fun g => decide (nid ∈ g.narrative_ids))).foldl
              (fun s g => g.author_ids.foldl insertNew s) []).length : ℕ) : ℚ)) := by
        split
        · exact le_refl 0
        · exact div_nonneg htgs (Nat.cast_nonneg _)
      refine pyRound4_bounds (le_min ?_ zero_le_one) (min_le_right _ _)
      have h6 : (0:ℚ) ≤ 6/10 := by norm_num
      have h4 : (0:ℚ) ≤ 4/10 := by norm_num
      exact add_nonneg (mul_nonneg hratio h6) (mul_nonneg havg h4)

lemma foreign_bounds (posts : List Post) (arg : Option (List String)) :
    0 ≤ calculate_foreign_domain_score posts arg ∧
      calculate_foreign_domain_score posts arg ≤ 1 := by
  unfold calculate_foreign_domain_score
  by_cases h1 : posts = []
  · rw [if_pos h1]
    norm_num
  · rw [if_neg h1]
    have hsub : (posts.foldl (fun s p => p.domains.foldl (fun s2 d =>
          (insert d s2.1, if (pyOrList arg defaultRiskConfig.foreign_tlds).any
            (fun tld => strEndsWith d tld) then insert d s2.2 else s2.2)) s)
        ((∅ : Finset String), (∅ : Finset String))).2 ⊆
        (posts.foldl (fun s p => p.domains.foldl (fun s2 d =>
          (insert d s2.1, if (pyOrList arg defaultRiskConfig.foreign_tlds).any
            (fun tld => strEndsWith d tld) then insert d s2.2 else s2.2)) s)
        ((∅ : Finset String), (∅ : Finset String))).1 := by
      refine foldl_preserve (fun s : Finset String × Finset String => s.2 ⊆ s.1) _ posts _
        (by simp) ?_
      intro s p _ hs
      refine foldl_preserve (fun s : Finset String × Finset String => s.2 ⊆ s.1) _ p.domains s
        hs ?_
      intro s2 d _ hs2
      dsimp only
      split
      · exact Finset.insert_subset_insert d hs2
      · exact subset_trans hs2 (Finset.subset_insert d s2.1)
    by_cases h2 : (posts.foldl (fun s p => p.domains.foldl (fun s2 d =>
          (insert d s2.1, if (pyOrList arg defaultRiskConfig.foreign_tlds).any
            (fun tld => strEndsWith d tld) then insert d s2.2 else s2.2)) s)
        ((∅ : Finset String), (∅ : Finset String))).1 = ∅
    · rw [if_pos h2]
      norm_num
    · rw [if_neg h2]
      have hpos : 0 < (posts.foldl (fun s p => p.domains.foldl (fun s2 d =>
            (insert d s2.1, if (pyOrList arg defaultRiskConfig.foreign_tlds).any
              (fun tld => strEndsWith d tld) then insert d s2.2 else s2.2)) s)
          ((∅ : Finset String), (∅ : Finset String))).1.card :=
        Finset.card_pos.mpr (Finset.nonempty_iff_ne_empty.mpr h2)
      have hq : (0 : ℚ) < ((posts.foldl (fun s p => p.domains.foldl (fun s2 d =>
            (insert d s2.1, if (pyOrList arg defaultRiskConfig.foreign_tlds).any
              (fun tld => strEndsWith d tld) then insert d s2.2 else s2.2)) s)
          ((∅ : Finset String), (∅ : Finset String))).1.card : ℚ) := by exact_mod_cast hpos
      refine pyRound4_bounds (div_nonneg (Nat.cast_nonneg _) hq.le) ?_
      rw [div_le_one hq]
      exact_mod_cast Finset.card_le_card hsub

lemma botIndicators_bounds (l : List Post) :
    0 ≤ botIndicators l ∧ botIndicators l ≤ 1 := by
  have key : ∀ a b c d : ℚ, 0 ≤ a → 0 ≤ b → 0 ≤ c → 0 ≤ d →
      0 ≤ min (a + b + c + d) 1 ∧ min (a + b + c + d) 1 ≤ 1 := by
    intro a b c d ha hb hc hd
    exact ⟨le_min (by linarith) zero_le_one, min_le_right _ _⟩
  exact key _ _ _ _ (by split <;> norm_num) (by split <;> norm_num)
    (by split <;> norm_num) (by split <;> norm_num)

lemma bot_bounds (posts : List Post) :
    0 ≤ calculate_bot_score posts ∧ calculate_bot_score posts ≤ 1 := by
  unfold calculate_bot_score
  by_cases h1 : posts = []
  · rw [if_pos h1]
    norm_num
  · rw [if_neg h1]
    by_cases h2 : (groupPostsByAuthor posts).filterMap (fun kv =>
        if kv.2.length < 2 then none else some (botIndicators kv.2)) = []
    · rw [if_pos h2]
      norm_num
    · rw [if_neg h2]
      have hmem : ∀ x ∈ (groupPostsByAuthor posts).filterMap (fun kv =>
          if kv.2.length < 2 then none else some (botIndicators kv.2)), 0 ≤ x ∧ x ≤ 1 := by
        intro x hx
        obtain ⟨kv, _, hf⟩ := List.mem_filterMap.mp hx
        split at hf
        · exact absurd hf (by simp)
        · rw [← Option.some.inj hf]
          exact botIndicators_bounds kv.2
      exact pyRound4_bounds (average_bounds _ h2 hmem).1 (average_bounds _ h2 hmem).2

lemma toxicity_bounds (posts : List Post) :
    0 ≤ calculate_toxicity_score posts ∧ calculate_toxicity_score posts ≤ 1 := by
  unfold calculate_toxicity_score
  by_cases h1 : posts = []
  · rw [if_pos h1]
    norm_num
  · rw [if_neg h1]
    by_cases h2 : sumList ((posts.map (fun p => pyWords (pyLower p.text))).map
        (fun ws => (ws.length : ℚ))) = 0
    · rw [if_pos h2]
      norm_num
    · rw [if_neg h2]
      have htot0 : 0 ≤ sumList ((posts.map (fun p => pyWords (pyLower p.text))).map
          (fun ws => (ws.length : ℚ))) := by
        refine sumList_nonneg _ ?_
        intro x hx
        obtain ⟨ws, _, rfl⟩ := List.mem_map.mp hx
        exact Nat.cast_nonneg _
      have htox0 : 0 ≤ sumList ((posts.map (fun p => pyWords (pyLower p.text))).map
          (fun ws => ((ws.countP (fun w =>
            decide (String.mk (w.filter Char.isAlphanum) ∈ toxic_keywords))) : ℚ))) := by
        refine sumList_nonneg _ ?_
        intro x hx
        obtain ⟨ws, _, rfl⟩ := List.mem_map.mp hx
        exact Nat.cast_nonneg _
      refine pyRound4_bounds (le_min ?_ zero_le_one) (min_le_right _ _)
      have : 0 ≤ sumList ((posts.map (fun p => pyWords (pyLower p.text))).map
          (fun ws => ((ws.countP (fun w =>
            decide (String.mk (w.filter Char.isAlphanum) ∈ toxic_keywords))) : ℚ))) /
          sumList ((posts.map (fun p => pyWords (pyLower p.text))).map
          (fun ws => (ws.length : ℚ))) :=
        div_nonneg htox0 htot0
      positivity

lemma combinedPairScore_le_one (emb : Option (Nat → Nat → ℚ))
    (hemb : ∀ f, emb = some f → ∀ i j, f i j ≤ 1) (p1 p2 : Post × Nat) :
    combinedPairScore defaultDetector emb p1 p2 ≤ 1 := by
  unfold combinedPairScore
  have ht : textSimOf emb p1.2 p2.2 ≤ 1 := by
    unfold textSimOf
    cases emb with
    | none => norm_num
    | some f => exact hemb f rfl _ _
  have hd := (jaccard_bounds p1.1.domains p2.1.domains).2
  have hh := (jaccard_bounds p1.1.hashtags p2.1.hashtags).2
  have hw1 : defaultDetector.text_weight = 1/2 := by norm_num [defaultDetector,
    CoordinationDetector.init, defaultCoordinationConfig]
  have hw2 : defaultDetector.domain_weight = 3/10 := by norm_num [defaultDetector,
    CoordinationDetector.init, defaultCoordinationConfig]
  have hw3 : defaultDetector.hashtag_weight = 1/5 := by norm_num [defaultDetector,
    CoordinationDetector.init, defaultCoordinationConfig]
  rw [hw1, hw2, hw3]
  linarith

lemma pair_score_fst_le_one (posts1 posts2 : List (Post × Nat)) (emb : Option (Nat → Nat → ℚ))
    (hemb : ∀ f, emb = some f → ∀ i j, f i j ≤ 1) :
    (defaultDetector.calculate_pair_score posts1 posts2 emb).1 ≤ 1 := by
  unfold CoordinationDetector.calculate_pair_score
  have hsc := foldl_evidenceStep_scores defaultDetector emb (postPairs posts1 posts2)
    (({} : CoordinationEvidence), [])
  by_cases hempty : ((postPairs posts1 posts2).foldl
      (evidenceStep defaultDetector emb) (({} : CoordinationEvidence), [])).2 = []
  · rw [if_pos hempty]
    norm_num
  · rw [if_neg hempty]
    show listMax ((postPairs posts1 posts2).foldl
      (evidenceStep defaultDetector emb) (({} : CoordinationEvidence), [])).2 ≤ 1
    refine listMax_le 1 _ hempty ?_
    intro x hx
    rw [hsc] at hx
    simp only [List.nil_append, List.mem_map] at hx
    obtain ⟨pp, _, rfl⟩ := hx
    exact combinedPairScore_le_one emb hemb pp.1 pp.2

lemma detect_pairs_score_bounds (post_data : List (Post × Nat))
    (emb : Option (Nat → Nat → ℚ)) (nid : String)
    (hemb : ∀ f, emb = some f → ∀ i j, f i j ≤ 1) :
    ∀ p ∈ defaultDetector.detect_pairs_in_narrative post_data emb nid,
      0 ≤ p.score ∧ p.score ≤ 1 := by
  intro p hp
  unfold CoordinationDetector.detect_pairs_in_narrative at hp
  obtain ⟨ab, _, hfeq⟩ := List.mem_filterMap.mp hp
  simp only at hfeq
  split at hfeq
  · rename_i hth
    rw [← Option.some.inj hfeq]
    have hth0 : (0 : ℚ) ≤ defaultDetector.similarity_threshold := by
      norm_num [defaultDetector, CoordinationDetector.init, defaultCoordinationConfig, pyOr]
    exact ⟨le_trans hth0 hth, pair_score_fst_le_one _ _ emb hemb⟩
  · exact absurd hfeq (by simp)

/-- Claim C5: under the default configuration, every field of the
RiskComponents record the risk engine computes lies in [0, 1] (velocity,
coordination density, bot score, foreign-domain share and toxicity — the
coordination component assuming, as `build_groups_wf` shows holds for
detector-produced groups, that
the input groups carry nonnegative scores and sizes), and every emitted
CoordinatedPair's score lies in [0, 1] (with the embedding cosine
similarities bounded by 1, as cosine similarity is). -/
theorem C5_default_config_scores_in_unit_interval
    (narrative : NarrativeMetadata) (posts : List Post) (groups : List CoordinatedGroup)
    (post_data : List (Post × Nat)) (emb : Option (Nat → Nat → ℚ)) (nid : String)
    (hg : ∀ g ∈ groups, 0 ≤ g.score ∧ 0 ≤ g.size)
    (hemb : ∀ f, emb = some f → ∀ i j, f i j ≤ 1) :
    (0 ≤ (calculate_narrative_risk defaultRiskConfig narrative posts
        groups).components.velocity ∧
      (calculate_narrative_risk defaultRiskConfig narrative posts
        groups).components.velocity ≤ 1) ∧
    (0 ≤ (calculate_narrative_risk defaultRiskConfig narrative posts
        groups).components.coordination_density ∧
      (calculate_narrative_risk defaultRiskConfig narrative posts
        groups).components.coordination_density ≤ 1) ∧
    (0 ≤ (calculate_narrative_risk defaultRiskConfig narrative posts
        groups).components.bot_score ∧
      (calculate_narrative_risk defaultRiskConfig narrative posts
        groups).components.bot_score ≤ 1) ∧
    (0 ≤ (calculate_narrative_risk defaultRiskConfig narrative posts
        groups).components.foreign_domain_ratio ∧
      (calculate_narrative_risk defaultRiskConfig narrative posts
        groups).components.foreign_domain_ratio ≤ 1) ∧
    (0 ≤ (calculate_narrative_risk defaultRiskConfig narrative posts
        groups).components.toxicity ∧
      (calculate_narrative_risk defaultRiskConfig narrative posts
        groups).components.toxicity ≤ 1) ∧
    (∀ p ∈ defaultDetector.detect_pairs_in_narrative post_data emb nid,
      0 ≤ p.score ∧ p.score ≤ 1) :=
  ⟨velocity_bounds posts narrative,
    coordination_bounds narrative.id groups narrative.author_count hg,
    bot_bounds posts,
    foreign_bounds posts none,
    toxicity_bounds posts,
    detect_pairs_score_bounds post_data emb nid hemb⟩

lemma pairLookup_mem (pairs : List CoordinatedPair) (k : String × String)
    (p : CoordinatedPair) (h : pairLookup pairs k = some p) : p ∈ pairs := by
  have := foldl_preserve (fun o : Option CoordinatedPair => ∀ q, o = some q → q ∈ pairs)
    (fun acc p' => if sortKey2 p'.author1_id p'.author2_id = k then some p' else acc)
    pairs none (by simp) ?_
  · exact this p h
  · intro acc p' hp' hacc q hq
    simp only at hq
    split at hq
    · rw [← Option.some.inj hq]
      exact hp'
    · exact hacc q hq

/-- Supporting fact for the hypothesis of C5: groups produced by
`_build_groups` from pairs with nonnegative scores themselves carry
nonnegative scores and sizes. -/
lemma build_groups_wf (d : CoordinationDetector) (pairs : List CoordinatedPair)
    (hp : ∀ p ∈ pairs, 0 ≤ p.score) :
    ∀ g ∈ d.build_groups pairs, 0 ≤ g.score ∧ 0 ≤ g.size := by
  intro g hg
  obtain ⟨gid, comp, rfl⟩ := build_groups_shape d pairs g hg
  constructor
  · show 0 ≤ (if ((pairsFrom comp).filterMap
        (fun ab => pairLookup pairs (sortKey2 ab.1 ab.2))).map (·.score) = [] then 0
      else sumList (((pairsFrom comp).filterMap
        (fun ab => pairLookup pairs (sortKey2 ab.1 ab.2))).map (·.score)) /
        ((((pairsFrom comp).filterMap
          (fun ab => pairLookup pairs (sortKey2 ab.1 ab.2))).map (·.score)).length : ℚ))
    split
    · exact le_refl 0
    · refine div_nonneg (sumList_nonneg _ ?_) (Nat.cast_nonneg _)
      intro x hx
      obtain ⟨q, hq, rfl⟩ := List.mem_map.mp hx
      obtain ⟨ab, _, hlook⟩ := List.mem_filterMap.mp hq
      exact hp q (pairLookup_mem pairs _ q hlook)
  · show (0 : ℤ) ≤ (comp.length : ℤ)
    exact_mod_cast Nat.zero_le comp.length

lemma riskGroup_wf : ∀ g ∈ [riskGroup], 0 ≤ g.score ∧ 0 ≤ g.size := by
  intro g hgm
  rw [List.mem_singleton.mp hgm]
  constructor <;> norm_num [riskGroup]

lemma none_emb_bound :
    ∀ f : Nat → Nat → ℚ, (none : Option (Nat → Nat → ℚ)) = some f → ∀ i j, f i j ≤ 1 :=
  fun _ h => absurd h (by simp)

/-- Witness for C5 at a concrete input: the risk-engine input used for C6/C9
and the two-author pair-detection input used for C1/C2. -/
theorem C5_witness :
    (∀ g ∈ [riskGroup], 0 ≤ g.score ∧ 0 ≤ g.size) ∧
    (∀ f : Nat → Nat → ℚ, (none : Option (Nat → Nat → ℚ)) = some f → ∀ i j, f i j ≤ 1) ∧
    ((0 ≤ (calculate_narrative_risk defaultRiskConfig riskNarrative [riskPost1, riskPost2]
        [riskGroup]).components.velocity ∧
      (calculate_narrative_risk defaultRiskConfig riskNarrative [riskPost1, riskPost2]
        [riskGroup]).components.velocity ≤ 1) ∧
    (0 ≤ (calculate_narrative_risk defaultRiskConfig riskNarrative [riskPost1, riskPost2]
        [riskGroup]).components.coordination_density ∧
      (calculate_narrative_risk defaultRiskConfig riskNarrative [riskPost1, riskPost2]
        [riskGroup]).components.coordination_density ≤ 1) ∧
    (0 ≤ (calculate_narrative_risk defaultRiskConfig riskNarrative [riskPost1, riskPost2]
        [riskGroup]).components.bot_score ∧
      (calculate_narrative_risk defaultRiskConfig riskNarrative [riskPost1, riskPost2]
        [riskGroup]).components.bot_score ≤ 1) ∧
    (0 ≤ (calculate_narrative_risk defaultRiskConfig riskNarrative [riskPost1, riskPost2]
        [riskGroup]).components.foreign_domain_ratio ∧
      (calculate_narrative_risk defaultRiskConfig riskNarrative [riskPost1, riskPost2]
        [riskGroup]).components.foreign_domain_ratio ≤ 1) ∧
    (0 ≤ (calculate_narrative_risk defaultRiskConfig riskNarrative [riskPost1, riskPost2]
        [riskGroup]).components.toxicity ∧
      (calculate_narrative_risk defaultRiskConfig riskNarrative [riskPost1, riskPost2]
        [riskGroup]).components.toxicity ≤ 1) ∧
    (∀ p ∈ defaultDetector.detect_pairs_in_narrative [(c8post1, 0), (c8post2, 1)] none "n1",
      0 ≤ p.score ∧ p.score ≤ 1)) :=
  ⟨riskGroup_wf, none_emb_bound,
    C5_default_config_scores_in_unit_interval riskNarrative [riskPost1, riskPost2]
      [riskGroup] [(c8post1, 0), (c8post2, 1)] none "n1" riskGroup_wf none_emb_bound⟩

end NarrativeGraph
